import Mathlib

/-!
# Job Search App: the handlers, middleware and routers of the job-board backend

A shallow embedding of the Express/Mongoose handlers of the job-board backend.

* The four collections are lists of documents in insertion order; the Mongoose
  statics used by the handlers (`findById`, `findOne`, `find`, `deleteMany`,
  `findByIdAndDelete`, `findByIdAndUpdate`, `save`) are list functions.
* A handler is a function from the store and the parts of `req` it reads to the
  outcome it produces (a response, a call of `next(new AppError ..)`, or an
  exception thrown out of the `async` body) together with the store afterwards.
* `Date.now()`, `bcrypt` and `jwt.sign` are inputs of the handlers that use them.
-/

namespace JobSearch

/-! ## Data model (database/models) -/

/-- A Mongo `ObjectId`; `toString()` on both sides of a comparison is injective, so two
ids are compared as numbers. -/
abbrev ObjectId := Nat

/-- A point in time, milliseconds since the epoch (`Date.now()`, a stored `Date`). -/
abbrev Millis := Nat

/-- Values of `role` (user.model.js, `enum: ["User", "Company_HR"]`). -/
inductive Role where
  | User
  | Company_HR
deriving DecidableEq, Repr

/-- Values of `status` (user.model.js, `enum: ["online", "offline"]`). -/
inductive Status where
  | online
  | offline
deriving DecidableEq, Repr

/-- A document of the `User` collection (user.model.js). An unset optional path reads as
`undefined`, here `none`. -/
structure User where
  _id : ObjectId
  firstName : String
  lastName : String
  username : String
  email : String
  password : String
  recoveryEmail : Option String
  DOB : Millis
  mobileNumber : String
  role : Role
  status : Status
  passwordResetOtp : Option String
  passwordResetOtpExpiry : Option Millis
  createdAt : Millis
deriving DecidableEq, Repr

/-- A document of the `Company` collection (company.model.js). -/
structure Company where
  _id : ObjectId
  companyName : String
  description : String
  industry : String
  address : String
  numberOfEmployees : String
  companyEmail : String
  companyHR : ObjectId
  createdAt : Millis
deriving DecidableEq, Repr

/-- A document of the `Job` collection. The model file is not part of the sources; the
fields are the ones the job handlers and `addJobVal` name. -/
structure Job where
  _id : ObjectId
  jobTitle : String
  jobLocation : String
  workingTime : String
  seniorityLevel : String
  jobDescription : String
  technicalSkills : List String
  softSkills : List String
  addedBy : ObjectId
deriving DecidableEq, Repr

/-- A document of the `Application` collection (application.model.js), as stored. -/
structure Application where
  _id : ObjectId
  jobId : ObjectId
  userId : ObjectId
  userTechSkills : List String
  userSoftSkills : List String
  userResume : String
  createdAt : Millis
deriving DecidableEq, Repr

/-- The database: one list of documents per collection. -/
structure Store where
  users : List User
  companies : List Company
  jobs : List Job
  applications : List Application
deriving DecidableEq, Repr

/-- Documents carry an `_id`. -/
class Doc (α : Type) where
  oid : α → ObjectId

instance : Doc User := ⟨fun d => d._id⟩
instance : Doc Company := ⟨fun d => d._id⟩
instance : Doc Job := ⟨fun d => d._id⟩
instance : Doc Application := ⟨fun d => d._id⟩

/-! ## Mongoose statics -/

/-- The call `Model.findById(id)`: the document with that `_id`, or `null`. -/
def findById {α : Type} [Doc α] (xs : List α) (id : ObjectId) : Option α :=
  xs.find? (fun d => Doc.oid d == id)

/-- The call `Model.findOne(filter)`: the first document matching the filter, or `null`. -/
def findOne {α : Type} (xs : List α) (p : α → Bool) : Option α :=
  xs.find? p

/-- The call `Model.find(filter)`: every document matching the filter. -/
def find {α : Type} (xs : List α) (p : α → Bool) : List α :=
  xs.filter p

/-- The call `Model.deleteMany(filter)`: the collection without the matching documents. -/
def deleteMany {α : Type} (xs : List α) (p : α → Bool) : List α :=
  xs.filter (fun d => !p d)

/-- The call `Model.findByIdAndDelete(id)`: removes one document with that `_id` and
returns it (or `null`), together with the collection afterwards. -/
def findByIdAndDelete {α : Type} [Doc α] (xs : List α) (id : ObjectId) : Option α × List α :=
  (findById xs id, xs.eraseP (fun d => Doc.oid d == id))

/-- Rewrites one document with the given `_id` (the write of `findByIdAndUpdate` and of
`doc.save()`), leaving its position in the collection. -/
def updateById {α : Type} [Doc α] : List α → ObjectId → (α → α) → List α
  | [], _, _ => []
  | d :: ds, id, f => if Doc.oid d == id then f d :: ds else d :: updateById ds id f

/-- Mongo keeps `_id` unique within a collection. -/
def idsUnique {α : Type} [Doc α] (xs : List α) : Prop :=
  (xs.map Doc.oid).Nodup

instance {α : Type} [Doc α] (xs : List α) : Decidable (idsUnique xs) := by
  unfold idsUnique; infer_instance

/-! ## Requests and outcomes -/

/-- The decoded token that `verifyToken` stores in `req.user`; `signIn` signs
`{ userId: user._id, name: user.name, role: user.role }` and the user schema has no
`name` path, so the payload carries `userId` and `role`. -/
structure TokenPayload where
  userId : ObjectId
  role : Role
deriving DecidableEq, Repr

/-- An `AppError(message, statusCode)` (src/utilities/appError.js is not part of the
sources; its two constructor arguments are kept as given). -/
structure AppError where
  message : String
  statusCode : Option Nat
deriving DecidableEq, Repr

/-- Exceptions thrown inside a handler body, which reject the promise of the `async`
function. -/
inductive JsError where
  | referenceError (identifier : String)
  | illegalArguments
  | duplicateKey
  | typeError
  | castError
  | headersSent
  | syntaxError
deriving DecidableEq, Repr

/-- A user document as it is serialised into a response: `password` is missing when the
query deselected it or the handler set it to `undefined`. -/
structure UserJson where
  _id : ObjectId
  firstName : String
  lastName : String
  username : String
  email : String
  password : Option String
  recoveryEmail : Option String
  DOB : Millis
  mobileNumber : String
  role : Role
  status : Status
  passwordResetOtp : Option String
  passwordResetOtpExpiry : Option Millis
  createdAt : Millis
deriving DecidableEq, Repr

/-- One row of the exported worksheet (application.controllers.js 80-87). -/
structure Row where
  UserID : ObjectId
  JobID : ObjectId
  UserTechSkills : String
  UserSoftSkills : String
  ResumeURL : String
  ApplicationDate : Millis
deriving DecidableEq, Repr

/-- An application document serialised after `.select("-userId")`. -/
structure ApplicationJson where
  _id : ObjectId
  jobId : ObjectId
  userId : Option ObjectId
  userTechSkills : List String
  userSoftSkills : List String
  userResume : String
  createdAt : Millis
deriving DecidableEq, Repr

/-- The `company` object that `getJobsWithCompanyInfo` attaches to a job
(job.controllers.js 104-111). -/
structure CompanyInfo where
  companyName : String
  description : String
  industry : String
  address : String
  numberOfEmployees : String
  companyEmail : String
deriving DecidableEq, Repr

/-- The JSON bodies the handlers send. -/
inductive Body where
  | message (message : String)
  | company (message : String) (company : Option Company)
  | job (message : String) (job : Option Job)
  | account (message : String) (account : User)
  | token (message : String) (token : Option String)
  | applications (message : String) (application : List Application)
  | companies (message : String) (company : List Company)
  | users (message : String) (user : List UserJson)
  | profile (message : String) (profile : UserJson)
  | download (filename : String) (rows : List Row)
  | jobs (message : String) (jobs : List Job)
  | accountView (message : String) (account : Option UserJson)
  | companyData (message : String) (company : Company) (jobs : List Job)
  | applicationViews (message : String) (applications : List ApplicationJson)
  | jobsWithCompanyInfo (message : String) (jobsWithCompanyInfo : List (Job × Option CompanyInfo))
deriving DecidableEq, Repr

/-- What a handler does with a request: `res.status(c).json(b)`, `next(new AppError ..)`,
or an exception. -/
inductive Outcome where
  | sent (status : Nat) (body : Body)
  | next (error : AppError)
  | threw (error : JsError)
deriving DecidableEq, Repr

/-! ## company.controllers.js -/

/-- The handler `deleteCompany` (company.controllers.js 87-106). `Job.find` returns an
array, which is truthy, so the `if (!jobs)` exit is never taken. -/
def deleteCompany (s : Store) (user : TokenPayload) (companyId : ObjectId) : Outcome × Store :=
  match findById s.companies companyId with
  | none => (.next ⟨"Company not found", some 404⟩, s)
  | some company =>
    if company.companyHR != user.userId then
      (.next ⟨"Access denied", some 403⟩, s)
    else
      let jobs := find s.jobs (fun j => j.addedBy == company.companyHR)
      let jobIds := jobs.map (fun job => job._id)
      let s1 := { s with applications := deleteMany s.applications (fun a => jobIds.contains a.jobId) }
      let s2 := { s1 with jobs := deleteMany s1.jobs (fun j => j.addedBy == company.companyHR) }
      let s3 := { s2 with companies := (findByIdAndDelete s2.companies companyId).2 }
      (.sent 200 (.message "Company deleted successfully"), s3)

/-- The body of `PUT /companies/:companyId` as `updateComVal` admits it: every key is
optional. -/
structure CompanyPatch where
  companyName : Option String
  description : Option String
  industry : Option String
  address : Option String
  companyEmail : Option String
  companyHR : Option ObjectId
  numberOfEmployees : Option String
deriving DecidableEq, Repr

/-- The update `{ $set: body }` on a Company document. -/
def CompanyPatch.apply (p : CompanyPatch) (c : Company) : Company :=
  { c with
    companyName := p.companyName.getD c.companyName
    description := p.description.getD c.description
    industry := p.industry.getD c.industry
    address := p.address.getD c.address
    companyEmail := p.companyEmail.getD c.companyEmail
    companyHR := p.companyHR.getD c.companyHR
    numberOfEmployees := p.numberOfEmployees.getD c.numberOfEmployees }

/-- The unique indexes of company.model.js (`companyName`, `companyEmail`): does another
document already hold one of the two values of `c`. -/
def companyClash (xs : List Company) (c : Company) : Bool :=
  xs.any (fun d => d._id != c._id && (d.companyName == c.companyName || d.companyEmail == c.companyEmail))

/-- The handler `updateComData` (company.controllers.js 57-72). The write is rejected by
the store with a duplicate-key error when it would break a unique index. -/
def updateComData (s : Store) (user : TokenPayload) (companyId : ObjectId) (body : CompanyPatch) :
    Outcome × Store :=
  match findById s.companies companyId with
  | none => (.next ⟨"Company not found", some 404⟩, s)
  | some company =>
    if company.companyHR != user.userId then
      (.next ⟨"Access denied", some 403⟩, s)
    else if companyClash s.companies (body.apply company) then
      (.threw .duplicateKey, s)
    else
      (.sent 200 (.company "Success" (some (body.apply company))),
        { s with companies := updateById s.companies companyId body.apply })

/-! ## job.controllers.js -/

/-- The body of `PUT /jobs/:jobId` as `updateJobVal` admits it: every key is optional,
`addedBy` included. -/
structure JobPatch where
  jobTitle : Option String
  jobLocation : Option String
  workingTime : Option String
  seniorityLevel : Option String
  jobDescription : Option String
  technicalSkills : Option (List String)
  softSkills : Option (List String)
  addedBy : Option ObjectId
deriving DecidableEq, Repr

/-- The update `{ $set: body }` on a Job document. -/
def JobPatch.apply (p : JobPatch) (j : Job) : Job :=
  { j with
    jobTitle := p.jobTitle.getD j.jobTitle
    jobLocation := p.jobLocation.getD j.jobLocation
    workingTime := p.workingTime.getD j.workingTime
    seniorityLevel := p.seniorityLevel.getD j.seniorityLevel
    jobDescription := p.jobDescription.getD j.jobDescription
    technicalSkills := p.technicalSkills.getD j.technicalSkills
    softSkills := p.softSkills.getD j.softSkills
    addedBy := p.addedBy.getD j.addedBy }

/-- The handler `updateJob` (job.controllers.js 46-54). It reads `req.params.jobId` and
`req.body` only; `req.user` is not consulted. -/
def updateJob (s : Store) (_user : TokenPayload) (jobId : ObjectId) (body : JobPatch) :
    Outcome × Store :=
  match findById s.jobs jobId with
  | none => (.next ⟨"Job not found", some 404⟩, s)
  | some job =>
    (.sent 200 (.job "success" (some (body.apply job))),
      { s with jobs := updateById s.jobs jobId body.apply })

/-- The handler `deleteJob` (job.controllers.js 65-75). -/
def deleteJob (s : Store) (user : TokenPayload) (jobId : ObjectId) : Outcome × Store :=
  match findById s.jobs jobId with
  | none => (.next ⟨"Job not found", some 404⟩, s)
  | some job =>
    if job.addedBy != user.userId then
      (.next ⟨"Access Denied not owner", some 403⟩, s)
    else
      let deleted := findByIdAndDelete s.jobs jobId
      let s1 := { s with jobs := deleted.2 }
      let s2 := { s1 with applications := deleteMany s1.applications (fun a => a.jobId == jobId) }
      (.sent 200 (.job "success" deleted.1), s2)

/-! ## user.controllers.js -/

/-- The identifiers bound in user.controllers.js by its import lines (1-9); the module
declares no other model. -/
def userControllersImports : List String :=
  ["catchError", "User", "bcrypt", "jwt", "AppError", "sendEmails", "Application", "Company", "Job"]

/-- Evaluating an identifier of user.controllers.js: an unbound one throws a
`ReferenceError`. -/
def resolveIdentifier (identifier : String) : Except JsError Unit :=
  if userControllersImports.contains identifier then .ok () else .error (.referenceError identifier)

/-- The handler `deleteAcc` (user.controllers.js 123-146). Line 138 evaluates the
identifier `Token` before the account is looked up. No model writes a token collection,
so with `Token` bound the call would leave the four collections as they are. -/
def deleteAcc (s : Store) (user : TokenPayload) : Outcome × Store :=
  let userId := user.userId
  let s1 :=
    match findOne s.companies (fun c => c.companyHR == userId) with
    | some company =>
      let jobs := find s.jobs (fun j => j.addedBy == company.companyHR)
      let jobIds := jobs.map (fun job => job._id)
      let a := { s with applications := deleteMany s.applications (fun a => jobIds.contains a.jobId) }
      let b := { a with jobs := deleteMany a.jobs (fun j => j.addedBy == company.companyHR) }
      { b with companies := (findByIdAndDelete b.companies company._id).2 }
    | none => s
  match resolveIdentifier "Token" with
  | .error e => (.threw e, s1)
  | .ok _ =>
    let deleted := findByIdAndDelete s1.users userId
    match deleted.1 with
    | none => (.next ⟨"User Not Found.", some 404⟩, { s1 with users := deleted.2 })
    | some account => (.sent 200 (.account "success" account), { s1 with users := deleted.2 })

/-- A field of a parsed JSON request body as the handler reads it; a missing key reads as
`undefined`, and `object` stands for any array or object. -/
inductive JsVal where
  | undefined
  | null
  | bool (b : Bool)
  | number (n : Int)
  | string (s : String)
  | object
deriving DecidableEq, Repr

/-- The two `bcryptjs` calls the handlers make on strings. -/
structure Bcrypt where
  hashSync : String → Nat → String
  compareSync : String → String → Bool

/-- The call `jwt.sign(payload, secret, callback)`: the token handed to the callback,
`undefined` when signing reports an error. -/
structure Jwt where
  sign : TokenPayload → Option String

/-- The test `user.passwordResetOtp !== otp`: the stored path is a string or unset, and
strict inequality is false only for two `undefined` or two equal strings. -/
def strictNe (stored : Option String) (supplied : JsVal) : Bool :=
  match stored, supplied with
  | none, .undefined => false
  | some a, .string b => a != b
  | _, _ => true

/-- The test `Date.now() > user.passwordResetOtpExpiry`: a stored Date converts to its
milliseconds; an unset path converts to NaN, for which the comparison is false. -/
def nowAfter (now : Millis) (expiry : Option Millis) : Bool :=
  match expiry with
  | none => false
  | some e => decide (now > e)

/-- The function `addMinutesToDate` (user.controllers.js 220-223). -/
def addMinutesToDate (date : Millis) (n : Nat) : Millis :=
  date + n * 60000

/-- The filter `{ recoveryEmail: recoveryEmail }` of `forgetPassReq` and `resetPass`. -/
def byRecoveryEmail (recoveryEmail : String) : User → Bool :=
  fun u => u.recoveryEmail == some recoveryEmail

/-- The assignments of `resetPass` lines 278-280 on the loaded document: the new hash is
stored and both reset paths are unset. -/
def passwordReplaced (user : User) (hash : String) : User :=
  { user with password := hash, passwordResetOtp := none, passwordResetOtpExpiry := none }

/-- The handler `forgetPassReq` (user.controllers.js 237-250). The argument `draw` is the
outcome of `Math.floor(Math.random() * 900000)`; the number is cast to the String path
by its decimal digits. The mail sent by `sendEmails` is not part of the store. -/
def forgetPassReq (now : Millis) (draw : Fin 900000) (s : Store) (recoveryEmail : String) :
    Outcome × Store :=
  match findOne s.users (byRecoveryEmail recoveryEmail) with
  | none => (.next ⟨"No Account Found With this Email.", some 404⟩, s)
  | some user =>
    let otp := 100000 + draw.val
    let otpExpire := addMinutesToDate now 10
    let user1 := { user with
      passwordResetOtp := some (toString otp)
      passwordResetOtpExpiry := some otpExpire }
    (.sent 200 (.message "OTP sent to your email."),
      { s with users := updateById s.users user._id (fun _ => user1) })

/-- The body of `POST /users/resetPass`; the route has no validation, so `otp` and
`newPassword` are whatever the JSON holds. -/
structure ResetPassBody where
  recoveryEmail : String
  otp : JsVal
  newPassword : JsVal
deriving DecidableEq, Repr

/-- The handler `resetPass` (user.controllers.js 266-283). The call
`bcrypt.hashSync(newPassword, 8)` throws on an argument that is not a string. -/
def resetPass (bcrypt : Bcrypt) (now : Millis) (s : Store) (body : ResetPassBody) :
    Outcome × Store :=
  match findOne s.users (byRecoveryEmail body.recoveryEmail) with
  | none => (.next ⟨"No Account Found With this Email.", some 404⟩, s)
  | some user =>
    if strictNe user.passwordResetOtp body.otp || nowAfter now user.passwordResetOtpExpiry then
      (.next ⟨"Invalid or expired OTP.", some 404⟩, s)
    else
      match body.newPassword with
      | .string newPassword =>
        let hashedPassword := bcrypt.hashSync newPassword 8
        (.sent 200 (.message "Password has been reset successfully"),
          { s with users :=
              updateById s.users user._id (fun _ => passwordReplaced user hashedPassword) })
      | _ => (.threw .illegalArguments, s)

/-- A filter object passed to `User.findOne`. -/
inductive UserFilter where
  | email (value : String)
  | recoveryEmail (value : Option String)
deriving DecidableEq, Repr

/-- Truthiness of a filter: an object literal is truthy. -/
def UserFilter.truthy : UserFilter → Bool
  | _ => true

/-- The expression `a || b` on two filter objects. -/
def logicalOr (a b : UserFilter) : UserFilter :=
  if a.truthy then a else b

/-- Does a user document match the filter. A filter on an `undefined` value matches the
documents in which the path is unset. -/
def UserFilter.test : UserFilter → User → Bool
  | .email v, u => u.email == v
  | .recoveryEmail v, u => u.recoveryEmail == v

/-- The body of `POST /users/signIn`: `email` and `password` are strings (`signInVal`
runs before the handler); the handler also reads `recoveryEmail`. -/
structure SignInBody where
  email : String
  password : String
  recoveryEmail : Option String
deriving DecidableEq, Repr

/-- The handler `signIn` (user.controllers.js 52-68). -/
def signIn (bcrypt : Bcrypt) (jwt : Jwt) (s : Store) (body : SignInBody) : Outcome × Store :=
  match findOne s.users (logicalOr (.email body.email) (.recoveryEmail body.recoveryEmail)).test with
  | none => (.next ⟨"Incorrect password or email.", some 404⟩, s)
  | some user =>
    if !bcrypt.compareSync body.password user.password then
      (.next ⟨"Incorrect password or email.", some 404⟩, s)
    else
      let user1 := { user with status := Status.online }
      (.sent 200 (.token "success" (jwt.sign ⟨user._id, user.role⟩)),
        { s with users := updateById s.users user._id (fun _ => user1) })

/-! ## application.model.js, fileUpload.js and application.controllers.js -/

/-- The string stored for a role. -/
def Role.toString : Role → String
  | Role.User => "User"
  | Role.Company_HR => "Company_HR"

/-- Does the text start with the pattern. -/
def startsWithChars : List Char → List Char → Bool
  | _, [] => true
  | [], _ :: _ => false
  | c :: cs, d :: ds => c == d && startsWithChars cs ds

/-- Does the pattern occur somewhere in the text. -/
def includesChars : List Char → List Char → Bool
  | [], pat => startsWithChars [] pat
  | c :: cs, pat => startsWithChars (c :: cs) pat || includesChars cs pat

/-- The call `text.includes(pattern)` of `String.prototype`. -/
def includes (text pattern : String) : Bool :=
  includesChars text.data pattern.data

/-- The file multer leaves in `req.file`: the generated uuid and the name the client
gave. -/
structure UploadedFile where
  uuid : String
  originalname : String
deriving DecidableEq, Repr

/-- The name under which the file is stored (fileUpload.js 11):
`uuidv4() + " " + file.originalname`. -/
def UploadedFile.filename (f : UploadedFile) : String :=
  f.uuid ++ " " ++ f.originalname

/-- An id read from a part of the request that no validation has checked
(`req.body.jobId` of `POST /applications`, whose `validate` line is commented out, and
`req.query.companyId` of `GET /applications/export`): the key is missing, or its value
casts to an ObjectId, or it is a value such as "abc" whose cast throws. -/
inductive IdParam where
  | missing
  | valid (id : ObjectId)
  | malformed (raw : String)
deriving DecidableEq, Repr

/-- The body fields `applyToJob` reads. -/
structure ApplyBody where
  jobId : IdParam
  userTechSkills : List String
  userSoftSkills : List String
deriving DecidableEq, Repr

/-- The handler `applyToJob` (application.controllers.js 22-45). The arguments `newId`
and `now` are the `_id` and `createdAt` the insert gives the document; `req.file` is
`undefined` when the request carried no file, and reading `.filename` of it throws.
`Job.findById` throws a cast error on a malformed id and finds nothing for `undefined`. -/
def applyToJob (newId : ObjectId) (now : Millis) (s : Store) (user : TokenPayload)
    (body : ApplyBody) (file : Option UploadedFile) : Outcome × Store :=
  let userId := user.userId
  match findById s.users userId with
  | none => (.next ⟨"User not found.", some 404⟩, s)
  | some u =>
    if !includes u.role.toString "User" then
      (.next ⟨"Access denied", some 403⟩, s)
    else
      match body.jobId with
      | .malformed _ => (.threw .castError, s)
      | .missing => (.next ⟨"Job not found", some 404⟩, s)
      | .valid jobId =>
        match findById s.jobs jobId with
        | none => (.next ⟨"Job not found", some 404⟩, s)
        | some _ =>
          match file with
          | none => (.threw .typeError, s)
          | some f =>
            let userResume := f.filename
            let applicationData : Application :=
              { _id := newId, jobId := jobId, userId := userId,
                userTechSkills := body.userTechSkills, userSoftSkills := body.userSoftSkills,
                userResume := userResume, createdAt := now }
            (.sent 201 (.applications "success" [applicationData]),
              { s with applications := s.applications ++ [applicationData] })

/-- The hook `schema.post("init", ..)` (application.model.js 33-37), run on every
Application document loaded from the store; the empty string is falsy. -/
def postInit (doc : Application) : Application :=
  if doc.userResume != "" then
    { doc with userResume := "http://localhost:3000/uploads/" ++ doc.userResume }
  else doc

/-- The call `Application.find(filter)`: the matching documents, each passed through the
`init` hook. -/
def findApplications (xs : List Application) (p : Application → Bool) : List Application :=
  (find xs p).map postInit

/-- What the export handler needs from the JavaScript `Date` of the host: the instant
`new Date(text)` denotes (`none` for an Invalid Date), and `date.setHours(h, m, sec, ms)`
under the time zone rules of the host, whatever they are. Instants are integers,
milliseconds from the epoch. -/
structure DateEnv where
  parse : String → Option Int
  setHours : Int → Nat → Nat → Nat → Nat → Int

/-- The call `date.setHours(h, m, sec, ms)` on a host whose local time is at a fixed
offset from UTC: the instant on the same local calendar day as `date` at the given local
time of day. -/
def setHours (tzOffset : Int) (date : Int) (h m sec ms : Nat) : Int :=
  let localTime := date + tzOffset
  let midnight := localTime - localTime % 86400000
  midnight + ((h * 3600000 + m * 60000 + sec * 1000 + ms : Nat) : Int) - tzOffset

/-- The query string of `GET /applications/export`; the key `date` may be missing. -/
structure ExportQuery where
  companyId : IdParam
  date : Option String
deriving DecidableEq, Repr

/-- One worksheet row (application.controllers.js 80-87) for an application whose
`userId` has been populated; a populated `userId` is `null` when no such user exists and
reading `._id` of it throws, here `none`. -/
def exportRow (users : List User) (application : Application) : Option Row :=
  match findById users application.userId with
  | none => none
  | some u =>
    some { UserID := u._id, JobID := application.jobId,
           UserTechSkills := String.intercalate ", " application.userTechSkills,
           UserSoftSkills := String.intercalate ", " application.userSoftSkills,
           ResumeURL := application.userResume,
           ApplicationDate := application.createdAt }

/-- The rows of `applications.map(..)`, `none` when one of them throws. -/
def exportRows (users : List User) : List Application → Option (List Row)
  | [] => some []
  | a :: rest =>
    match exportRow users a, exportRows users rest with
    | some r, some rs => some (r :: rs)
    | _, _ => none

/-- The filter of the export query (application.controllers.js 70-73):
`jobId: { $in: jobIds }, createdAt: { $gte: startDate, $lt: endDate }`. -/
def exportFilter (jobIds : List ObjectId) (startDate endDate : Int) (a : Application) : Bool :=
  jobIds.contains a.jobId && decide (startDate ≤ (a.createdAt : Int))
    && decide ((a.createdAt : Int) < endDate)

/-- The handler `getApplicationsByCompanyAndDate` (application.controllers.js 54-106).
An Invalid Date, which is what `new Date(undefined)` and `new Date` of a text that does
not parse give, makes the query throw a cast error, and so does `Company.findById` on a
malformed id; the worksheet written and downloaded is the body `download`. -/
def getApplicationsByCompanyAndDate (env : DateEnv) (s : Store) (user : TokenPayload)
    (query : ExportQuery) : Outcome × Store :=
  match query.companyId with
  | .malformed _ => (.threw .castError, s)
  | .missing => (.next ⟨"Company not found", some 404⟩, s)
  | .valid companyId =>
    match findById s.companies companyId with
    | none => (.next ⟨"Company not found", some 404⟩, s)
    | some company =>
      if company.companyHR != user.userId then
        (.next ⟨"Access denied", some 403⟩, s)
      else
        match query.date with
        | none => (.threw .castError, s)
        | some date =>
          match env.parse date with
          | none => (.threw .castError, s)
          | some parsed =>
            let startDate := env.setHours parsed 0 0 0 0
            let endDate := env.setHours startDate 23 59 59 999
            let jobs := find s.jobs (fun j => j.addedBy == company.companyHR)
            let jobIds := jobs.map (fun job => job._id)
            let applications :=
              findApplications s.applications (exportFilter jobIds startDate endDate)
            if applications.length == 0 then
              (.next ⟨"No applications found for the specified criteria", some 404⟩, s)
            else
              match exportRows s.users applications with
              | none => (.threw .typeError, s)
              | some worksheetData =>
                let filename :=
                  "Applications_" ++ toString companyId ++ "_" ++ date ++ ".xlsx"
                (.sent 200 (.download filename worksheetData), s)

/-! ## The cascades, write by write -/

/-- The store after each write of `deleteJob`, in the order the handler awaits them:
`Job.findByIdAndDelete` (line 71), then `Application.deleteMany` (line 72). -/
def deleteJobWrites (s : Store) (user : TokenPayload) (jobId : ObjectId) : List Store :=
  match findById s.jobs jobId with
  | none => []
  | some job =>
    if job.addedBy != user.userId then []
    else
      let s1 := { s with jobs := (findByIdAndDelete s.jobs jobId).2 }
      let s2 := { s1 with applications := deleteMany s1.applications (fun a => a.jobId == jobId) }
      [s1, s2]

/-- The store after each write of `deleteCompany`: `Application.deleteMany` (line 100),
`Job.deleteMany` (line 101), `Company.findByIdAndDelete` (line 103). -/
def deleteCompanyWrites (s : Store) (user : TokenPayload) (companyId : ObjectId) : List Store :=
  match findById s.companies companyId with
  | none => []
  | some company =>
    if company.companyHR != user.userId then []
    else
      let jobs := find s.jobs (fun j => j.addedBy == company.companyHR)
      let jobIds := jobs.map (fun job => job._id)
      let s1 := { s with applications := deleteMany s.applications (fun a => jobIds.contains a.jobId) }
      let s2 := { s1 with jobs := deleteMany s1.jobs (fun j => j.addedBy == company.companyHR) }
      let s3 := { s2 with companies := (findByIdAndDelete s2.companies companyId).2 }
      [s1, s2, s3]

/-- The store after each write of `deleteAcc` up to the throw on line 138:
`Application.deleteMany` (line 132), `Job.deleteMany` (line 134),
`Company.findByIdAndDelete` (line 136). -/
def deleteAccWrites (s : Store) (user : TokenPayload) : List Store :=
  let userId := user.userId
  match findOne s.companies (fun c => c.companyHR == userId) with
  | some company =>
    let jobs := find s.jobs (fun j => j.addedBy == company.companyHR)
    let jobIds := jobs.map (fun job => job._id)
    let a := { s with applications := deleteMany s.applications (fun a => jobIds.contains a.jobId) }
    let b := { a with jobs := deleteMany a.jobs (fun j => j.addedBy == company.companyHR) }
    let c := { b with companies := (findByIdAndDelete b.companies company._id).2 }
    [a, b, c]
  | none => []

/-! ## Middleware (verifyToken.js, validate.js, company.validation.js) and routers -/

/-- The parts of `req` the middleware reads and writes: the raw `token` header and
`req.user`. -/
structure Request where
  originalUrl : String
  token : Option String
  user : Option TokenPayload
deriving DecidableEq, Repr

/-- What a middleware does: `next()` with the request as it now is, `next(err)`, or an
exception. -/
inductive Step where
  | next (req : Request)
  | nextError (error : AppError) (req : Request)
  | threw (error : JsError)
deriving DecidableEq, Repr

/-- The middleware `verifyToken` (verifyToken.js 4-11). The argument `verify` is
`jwt.verify(token, process.env.JWT_SECRET, callback)`: the decoded payload, or `none`
when the callback gets an error. -/
def verifyToken (verify : Option String → Option TokenPayload) (req : Request) : Step :=
  match verify req.token with
  | none => .nextError ⟨"Invalid Token", none⟩ req
  | some decoded => .next { req with user := some decoded }

/-- The middleware `roleVal` (company.validation.js 5-15); reading `.role` of an unset
`req.user` throws. -/
def roleVal (req : Request) : Step :=
  match req.user with
  | none => .threw .typeError
  | some user =>
    if !includes user.role.toString "Company_HR" then
      .nextError ⟨"Access denied", some 403⟩ req
    else .next req

/-- The middleware `validate(schema)` (validate.js 3-15). The argument `error` is the
list of `error.details` messages of `schema.validate`, `none` when there is no error; the
list is handed to `AppError` and kept here in its string form. -/
def validate (error : Option (List String)) (req : Request) : Step :=
  match error with
  | none => .next req
  | some errMsgs => .nextError ⟨String.intercalate "," errMsgs, some 404⟩ req

/-- The entries of a route definition. -/
inductive Stage where
  | validate (schema : String)
  | verifyToken
  | roleVal
  | uploadSingleFile (fieldName : String)
  | handler (name : String)
deriving DecidableEq, Repr

/-- A line `router.method(path, ...stages)`. -/
structure Route where
  method : String
  path : String
  stages : List Stage
deriving DecidableEq, Repr

/-- The routes of company.routes.js, in order. -/
def companyRouter : List Route :=
  [ ⟨"POST", "/addCompany",
      [.validate "addCompanyVal", .verifyToken, .roleVal, .handler "addCompany"]⟩,
    ⟨"PUT", "/:companyId",
      [.validate "updateComVal", .verifyToken, .roleVal, .handler "updateComData"]⟩,
    ⟨"DELETE", "/:companyId", [.verifyToken, .roleVal, .handler "deleteCompany"]⟩,
    ⟨"GET", "/getComData/:companyId", [.verifyToken, .roleVal, .handler "getCompanyData"]⟩,
    ⟨"GET", "/searchCompany", [.verifyToken, .handler "searchCompany"]⟩,
    ⟨"GET", "/getApplications/:jobId",
      [.verifyToken, .roleVal, .handler "getApplicationByJob"]⟩ ]

/-- The routes of job.routes.js, in order. -/
def jobRouter : List Route :=
  [ ⟨"GET", "/jobsByCom", [.verifyToken, .handler "getJobsForCompany"]⟩,
    ⟨"GET", "/filter", [.verifyToken, .handler "filterJobs"]⟩,
    ⟨"POST", "/", [.validate "addJobVal", .verifyToken, .roleVal, .handler "addJob"]⟩,
    ⟨"PUT", "/:jobId", [.validate "updateJobVal", .verifyToken, .roleVal, .handler "updateJob"]⟩,
    ⟨"DELETE", "/:jobId", [.verifyToken, .roleVal, .handler "deleteJob"]⟩,
    ⟨"GET", "/", [.verifyToken, .handler "getJobsWithCompanyInfo"]⟩ ]

/-- The routes of application.routes.js, in order. -/
def applicationRouter : List Route :=
  [ ⟨"POST", "/", [.verifyToken, .uploadSingleFile "userResume", .handler "applyToJob"]⟩,
    ⟨"GET", "/export",
      [.verifyToken, .roleVal, .handler "getApplicationsByCompanyAndDate"]⟩ ]

/-- What is fixed while one request runs through a route: the outcome of `jwt.verify`,
the Joi result of its body under each schema, the error multer raises for a field (if
any), and each handler applied to the request's parameters and body, as a function of
`req.user` and the store. -/
structure RouteEnv where
  verify : Option String → Option TokenPayload
  joiError : String → Option (List String)
  uploadError : String → Option AppError
  handle : String → Option TokenPayload → Store → Outcome × Store

/-- One stage as a middleware. -/
def Stage.step (env : RouteEnv) (stage : Stage) (req : Request) : Step :=
  match stage with
  | .validate schema => JobSearch.validate (env.joiError schema) req
  | .verifyToken => JobSearch.verifyToken env.verify req
  | .roleVal => JobSearch.roleVal req
  | .uploadSingleFile fieldName =>
    match env.uploadError fieldName with
    | some e => .nextError e req
    | none => .next req
  | .handler _ => .next req

/-- Express runs the stages of the matched route in order: `next()` moves on to the
following stage, `next(err)` and an exception skip the rest, and a handler ends the
chain. A chain that runs out reaches the fallback of index.js 31-33. -/
def runStages (env : RouteEnv) : List Stage → Request → Store → Outcome × Store
  | [], req, s => (.next ⟨"Route Not Found " ++ req.originalUrl, some 404⟩, s)
  | .handler name :: _, req, s => env.handle name req.user s
  | stage :: rest, req, s =>
    match stage.step env req with
    | .next req1 => runStages env rest req1 s
    | .nextError e _ => (.next e, s)
    | .threw e => (.threw e, s)

/-- Is the stage a `validate(..)`. -/
def Stage.isValidate : Stage → Bool
  | .validate _ => true
  | _ => false

/-- The handlers that the claim on role gating names: company add, update, delete,
getComData, getApplications; job add, update, delete; applications export. -/
def hrGatedHandlers : List String :=
  ["addCompany", "updateComData", "deleteCompany", "getCompanyData", "getApplicationByJob",
   "addJob", "updateJob", "deleteJob", "getApplicationsByCompanyAndDate"]

/-! ## signUp, getUserProfile and addCompany -/

/-- The body of `POST /users/signUp` as `signUpVal` admits it. -/
structure SignUpBody where
  firstName : String
  lastName : String
  username : String
  email : String
  recoveryEmail : Option String
  password : String
  DOB : Millis
  mobileNumber : String
  role : Role
deriving DecidableEq, Repr

/-- A user document serialised with all its paths. -/
def User.toJson (u : User) : UserJson :=
  { _id := u._id, firstName := u.firstName, lastName := u.lastName, username := u.username,
    email := u.email, password := some u.password, recoveryEmail := u.recoveryEmail,
    DOB := u.DOB, mobileNumber := u.mobileNumber, role := u.role, status := u.status,
    passwordResetOtp := u.passwordResetOtp,
    passwordResetOtpExpiry := u.passwordResetOtpExpiry, createdAt := u.createdAt }

/-- The projection `.select("-password")`, and likewise `doc.password = undefined`
before the document is serialised. -/
def withoutPassword (u : User) : UserJson :=
  { u.toJson with password := none }

/-- The unique indexes of user.model.js (`username`, `email`, `mobileNumber`): does a
stored document already hold one of the three values of `u`. -/
def userClash (xs : List User) (u : User) : Bool :=
  xs.any (fun d => d.username == u.username || d.email == u.email
    || d.mobileNumber == u.mobileNumber)

/-- The handler `signUp` (user.controllers.js 30-34). The arguments `newId` and `now`
are the `_id` and `createdAt` of the inserted document; `status` takes its default. The
insert is rejected with a duplicate-key error when it would break a unique index. The
body is inserted as it reaches the handler; the `checkEmail` middleware that runs before
it on the route is not part of the sources. -/
def signUp (newId : ObjectId) (now : Millis) (s : Store) (body : SignUpBody) :
    Outcome × Store :=
  let user : User :=
    { _id := newId, firstName := body.firstName, lastName := body.lastName,
      username := body.username, email := body.email, password := body.password,
      recoveryEmail := body.recoveryEmail, DOB := body.DOB,
      mobileNumber := body.mobileNumber, role := body.role, status := Status.offline,
      passwordResetOtp := none, passwordResetOtpExpiry := none, createdAt := now }
  if userClash s.users user then
    (.threw .duplicateKey, s)
  else
    (.sent 201 (.users "Success" [withoutPassword user]),
      { s with users := s.users ++ [user] })

/-- The handler `getUserProfile` (user.controllers.js 181-188). -/
def getUserProfile (s : Store) (userId : ObjectId) : Outcome × Store :=
  match findById s.users userId with
  | none => (.next ⟨"User Not Found.", some 404⟩, s)
  | some profile => (.sent 200 (.profile "success" (withoutPassword profile)), s)

/-- The body of `POST /companies/addCompany`: the six keys of `addCompanyVal`, and the
`companyHR` key the handler overwrites. -/
structure AddCompanyBody where
  companyName : String
  description : String
  industry : String
  address : String
  numberOfEmployees : String
  companyEmail : String
  companyHR : Option ObjectId
deriving DecidableEq, Repr

/-- The handler `addCompany` (company.controllers.js 27-32): line 28 sets
`req.body.companyHR = req.user.userId` before the insert. The arguments `newId` and `now`
are the `_id` and `createdAt` of the inserted document. -/
def addCompany (newId : ObjectId) (now : Millis) (s : Store) (user : TokenPayload)
    (body : AddCompanyBody) : Outcome × Store :=
  let body1 := { body with companyHR := some user.userId }
  let company : Company :=
    { _id := newId, companyName := body1.companyName, description := body1.description,
      industry := body1.industry, address := body1.address,
      numberOfEmployees := body1.numberOfEmployees, companyEmail := body1.companyEmail,
      companyHR := body1.companyHR.getD user.userId, createdAt := now }
  if s.companies.any (fun d => d.companyName == company.companyName
      || d.companyEmail == company.companyEmail) then
    (.threw .duplicateKey, s)
  else
    (.sent 201 (.companies "success" [company]),
      { s with companies := s.companies ++ [company] })

/-- Each Company's `companyHR` is the `_id` of a stored User whose role is Company_HR. -/
def companiesHaveHR (s : Store) : Prop :=
  ∀ c ∈ s.companies, ∃ u ∈ s.users, u._id = c.companyHR ∧ u.role = Role.Company_HR

instance (s : Store) : Decidable (companiesHaveHR s) := by
  unfold companiesHaveHR; infer_instance

/-! ## addJob -/

/-- The body of `POST /jobs` as `addJobVal` admits it; the two skill arrays and
`addedBy` are optional keys. -/
structure AddJobBody where
  jobTitle : String
  jobLocation : String
  workingTime : String
  seniorityLevel : String
  jobDescription : String
  technicalSkills : Option (List String)
  softSkills : Option (List String)
  addedBy : Option ObjectId
deriving DecidableEq, Repr

/-- The handler `addJob` (job.controllers.js 24-28): line 25 sets
`req.body.addedBy = req.user.userId` before the insert. The argument `newId` is the
`_id` of the inserted document; an array path that the body leaves out is stored
empty. -/
def addJob (newId : ObjectId) (s : Store) (user : TokenPayload) (body : AddJobBody) :
    Outcome × Store :=
  let body1 := { body with addedBy := some user.userId }
  let job : Job :=
    { _id := newId, jobTitle := body1.jobTitle, jobLocation := body1.jobLocation,
      workingTime := body1.workingTime, seniorityLevel := body1.seniorityLevel,
      jobDescription := body1.jobDescription,
      technicalSkills := body1.technicalSkills.getD [],
      softSkills := body1.softSkills.getD [],
      addedBy := body1.addedBy.getD user.userId }
  (.sent 201 (.jobs "success" [job]), { s with jobs := s.jobs ++ [job] })

/-! ## updateAcc -/

/-- The body of `PUT /users/updateAcc` as `updateVal` admits it: every key is optional. -/
structure UpdateAccBody where
  email : Option String
  recoveryEmail : Option String
  DOB : Option Millis
  mobileNumber : Option String
  firstName : Option String
  lastName : Option String
deriving DecidableEq, Repr

/-- The update `{ $set: body }` on a User document. -/
def UpdateAccBody.apply (p : UpdateAccBody) (u : User) : User :=
  { u with
    email := p.email.getD u.email
    recoveryEmail := match p.recoveryEmail with
      | some r => some r
      | none => u.recoveryEmail
    DOB := p.DOB.getD u.DOB
    mobileNumber := p.mobileNumber.getD u.mobileNumber
    firstName := p.firstName.getD u.firstName
    lastName := p.lastName.getD u.lastName }

/-- Truthiness of a body key that holds a string: a missing key and the empty string are
falsy. -/
def truthyString : Option String → Bool
  | some v => v != ""
  | none => false

/-- The test `found && found._id.toString() !== userId` on the result of a `findOne`. -/
def foundOther (found : Option User) (userId : ObjectId) : Bool :=
  match found with
  | some d => d._id != userId
  | none => false

/-- The unique indexes of user.model.js against an update: does another document hold
the `username`, `email` or `mobileNumber` of `u`. -/
def userUpdateClash (xs : List User) (u : User) : Bool :=
  xs.any (fun d => d._id != u._id && (d.username == u.username || d.email == u.email
    || d.mobileNumber == u.mobileNumber))

/-- The handler `updateAcc` (user.controllers.js 90-109), as the list of what it does in
order, and the store afterwards. The email conflict ends the handler with
`return next(..)` (line 97). The mobile conflict calls `next(..)` on line 102 without
`return`, so the handler goes on to the update of line 104. The store rejects an update
that would break a unique index with a duplicate-key error. Once `next(err)` has been
answered by the error handler (src/middleware/globalErrorHandling.js, not part of the
sources), a later `res.json` throws because the response has been sent. -/
def updateAcc (s : Store) (user : TokenPayload) (body : UpdateAccBody) :
    List Outcome × Store :=
  let userId := user.userId
  if truthyString body.email
      && foundOther (findOne s.users (fun u => some u.email == body.email)) userId then
    ([.next ⟨"Email Already Exist.", some 404⟩], s)
  else
    let reported : List Outcome :=
      if truthyString body.mobileNumber
          && foundOther (findOne s.users (fun u => some u.mobileNumber == body.mobileNumber))
              userId then
        [.next ⟨"Mobile Number Already Exist.", some 404⟩]
      else []
    let respond (account : Option UserJson) : Outcome :=
      if reported.isEmpty then .sent 200 (.accountView "success" account)
      else .threw .headersSent
    match findById s.users userId with
    | none => (reported ++ [respond none], s)
    | some account =>
      if userUpdateClash s.users (body.apply account) then
        (reported ++ [.threw .duplicateKey], s)
      else
        (reported ++ [respond (some (withoutPassword (body.apply account)))],
          { s with users := updateById s.users userId body.apply })

/-! ## The handlers that only read, and updatePassword -/

/-- The handler `getUserData` (user.controllers.js 160-168). -/
def getUserData (s : Store) (user : TokenPayload) : Outcome × Store :=
  match findById s.users user.userId with
  | none => (.next ⟨"User Not Found.", some 404⟩, s)
  | some account => (.sent 200 (.accountView "success" (some (withoutPassword account))), s)

/-- The body of `PUT /users/updatePass` as `updatePasswordVal` admits it. -/
structure UpdatePasswordBody where
  currentPassword : String
  newPassword : String
deriving DecidableEq, Repr

/-- The handler `updatePassword` (user.controllers.js 204-218). -/
def updatePassword (bcrypt : Bcrypt) (s : Store) (user : TokenPayload)
    (body : UpdatePasswordBody) : Outcome × Store :=
  match findById s.users user.userId with
  | none => (.next ⟨"User Not Found.", some 404⟩, s)
  | some u =>
    if !bcrypt.compareSync body.currentPassword u.password then
      (.next ⟨"Current password is incorrect .", some 404⟩, s)
    else
      let hashedPassword := bcrypt.hashSync body.newPassword 8
      (.sent 200 (.message "Password Updated Successfully."),
        { s with users := updateById s.users u._id (fun _ => { u with password := hashedPassword }) })

/-- The handler `getAccByRecovery` (user.controllers.js 297-309). On lines 299 and 306
`AppError(..)` is called without `new`; `AppError` is constructed with `new` everywhere
else, and calling a class without `new` throws a TypeError. -/
def getAccByRecovery (s : Store) (recoveryEmail : Option String) : Outcome × Store :=
  if !truthyString recoveryEmail then
    (.threw .typeError, s)
  else
    let users := (find s.users (fun u => u.recoveryEmail == recoveryEmail)).map withoutPassword
    if users.length == 0 then
      (.threw .typeError, s)
    else
      (.sent 200 (.users "success" users), s)

/-- The handler `getCompanyData` (company.controllers.js 122-138). -/
def getCompanyData (s : Store) (user : TokenPayload) (companyId : ObjectId) : Outcome × Store :=
  match findById s.companies companyId with
  | none => (.next ⟨"Company not found", some 404⟩, s)
  | some company =>
    if company.companyHR != user.userId then
      (.next ⟨"Access denied", some 403⟩, s)
    else
      let jobs := find s.jobs (fun j => j.addedBy == company.companyHR)
      (.sent 200 (.companyData "Success" company jobs), s)

/-- The handler `searchCompany` (company.controllers.js 153-165). The argument `regExpI`
is `new RegExp(pattern, "i")` as a test on strings, `none` when the pattern is not a
regular expression and the constructor throws. -/
def searchCompany (regExpI : String → Option (String → Bool)) (s : Store)
    (name : Option String) : Outcome × Store :=
  if !truthyString name then
    (.next ⟨"Company name query parameter is required", some 400⟩, s)
  else
    match regExpI (name.getD "") with
    | none => (.threw .syntaxError, s)
    | some test =>
      let companies := find s.companies (fun c => test c.companyName)
      if companies.length == 0 then
        (.next ⟨"Not Found", some 404⟩, s)
      else
        (.sent 200 (.companies "Success" companies), s)

/-- The projection `.select("-userId")` on a loaded application. -/
def withoutUserId (a : Application) : ApplicationJson :=
  { _id := a._id, jobId := a.jobId, userId := none, userTechSkills := a.userTechSkills,
    userSoftSkills := a.userSoftSkills, userResume := a.userResume, createdAt := a.createdAt }

/-- The handler `getApplicationByJob` (company.controllers.js 181-196). -/
def getApplicationByJob (s : Store) (user : TokenPayload) (jobId : ObjectId) : Outcome × Store :=
  match findById s.jobs jobId with
  | none => (.next ⟨"Job not found", some 404⟩, s)
  | some job =>
    if job.addedBy != user.userId then
      (.next ⟨"Access denied", some 403⟩, s)
    else
      let applications :=
        (findApplications s.applications (fun a => a.jobId == jobId)).map withoutUserId
      if applications.length == 0 then
        (.next ⟨"No applications found for this job", some 404⟩, s)
      else
        (.sent 200 (.applicationViews "success" applications), s)

/-- The loop of `getJobsWithCompanyInfo` (job.controllers.js 94-114): `none` when a job
has no user behind `addedBy` and the handler leaves with the 404 error. -/
def jobsWithCompanyInfo (s : Store) : List Job → Option (List (Job × Option CompanyInfo))
  | [] => some []
  | job :: rest =>
    match findById s.users job.addedBy with
    | none => none
    | some companyHR =>
      let company := findOne s.companies (fun c => c.companyHR == companyHR._id)
      let info : Option CompanyInfo := company.map (fun c =>
        { companyName := c.companyName, description := c.description, industry := c.industry,
          address := c.address, numberOfEmployees := c.numberOfEmployees,
          companyEmail := c.companyEmail })
      match jobsWithCompanyInfo s rest with
      | none => none
      | some more => some ((job, info) :: more)

/-- The handler `getJobsWithCompanyInfo` (job.controllers.js 89-116). -/
def getJobsWithCompanyInfo (s : Store) : Outcome × Store :=
  match jobsWithCompanyInfo s s.jobs with
  | none => (.next ⟨"Company HR not found", some 404⟩, s)
  | some all => (.sent 200 (.jobsWithCompanyInfo "success" all), s)

/-- The handler `getJobsForCompany` (job.controllers.js 127-137). -/
def getJobsForCompany (s : Store) (companyName : Option String) : Outcome × Store :=
  match findOne s.companies (fun c => some c.companyName == companyName) with
  | none => (.next ⟨"Company not found", some 404⟩, s)
  | some company =>
    let jobs := find s.jobs (fun j => j.addedBy == company.companyHR)
    if jobs.length == 0 then
      (.next ⟨"No jobs added by this company.", some 404⟩, s)
    else
      (.sent 201 (.jobs "success" jobs), s)

/-- The query string of `GET /jobs/filter`. -/
structure FilterQuery where
  workingTime : Option String
  jobLocation : Option String
  seniorityLevel : Option String
  jobTitle : Option String
  technicalSkills : Option String
deriving DecidableEq, Repr

/-- A filter entry `new RegExp(value, "i")` that is set only for a truthy value: the
outer `none` is a constructor that throws, the inner `none` an entry that is not set. -/
def optionalRegExp (regExpI : String → Option (String → Bool)) (value : Option String) :
    Option (Option (String → Bool)) :=
  if truthyString value then
    match regExpI (value.getD "") with
    | none => none
    | some test => some (some test)
  else some none

/-- The handler `filterJobs` (job.controllers.js 152-173). -/
def filterJobs (regExpI : String → Option (String → Bool)) (s : Store) (query : FilterQuery) :
    Outcome × Store :=
  match optionalRegExp regExpI query.seniorityLevel, optionalRegExp regExpI query.jobTitle with
  | some seniority, some title =>
    let wanted := (query.technicalSkills.getD "").splitOn ","
    let filter := fun (j : Job) =>
      (!truthyString query.workingTime || some j.workingTime == query.workingTime)
        && (!truthyString query.jobLocation || some j.jobLocation == query.jobLocation)
        && (match seniority with
            | some test => test j.seniorityLevel
            | none => true)
        && (match title with
            | some test => test j.jobTitle
            | none => true)
        && (!truthyString query.technicalSkills
            || j.technicalSkills.any (fun skill => wanted.contains skill))
    let jobs := find s.jobs filter
    if jobs.length == 0 then
      (.next ⟨"No Result", some 404⟩, s)
    else
      (.sent 200 (.jobs "success" jobs), s)
  | _, _ => (.threw .syntaxError, s)

/-- The handler of `GET /pdf` (index.js 21-26). -/
def pdf (s : Store) : Outcome × Store :=
  (.sent 200 (.applications "success" (findApplications s.applications (fun _ => true))), s)

/-! ## A small database used to run the handlers -/

/-- An HR user, owner of `acme`. -/
def hrH : User :=
  { _id := 1, firstName := "Hana", lastName := "Hr", username := "hana", email := "hana@gmail.com",
    password := "hash:Secret1234", recoveryEmail := some "hana.rec@gmail.com", DOB := 0,
    mobileNumber := "01012345678", role := Role.Company_HR, status := Status.offline,
    passwordResetOtp := none, passwordResetOtpExpiry := none, createdAt := 0 }

/-- An applicant. -/
def userU : User :=
  { _id := 2, firstName := "Omar", lastName := "User", username := "omar", email := "omar@gmail.com",
    password := "hash:Passw0rd99", recoveryEmail := some "omar.rec@gmail.com", DOB := 0,
    mobileNumber := "01112345678", role := Role.User, status := Status.offline,
    passwordResetOtp := none, passwordResetOtpExpiry := none, createdAt := 0 }

/-- A second HR user, who owns nothing. -/
def hrG : User :=
  { _id := 3, firstName := "Gamal", lastName := "Hr", username := "gamal", email := "gamal@gmail.com",
    password := "hash:Another123", recoveryEmail := none, DOB := 0,
    mobileNumber := "01212345678", role := Role.Company_HR, status := Status.offline,
    passwordResetOtp := none, passwordResetOtpExpiry := none, createdAt := 0 }

/-- The company of `hrH`. -/
def acme : Company :=
  { _id := 10, companyName := "Acme", description := "Makes everything", industry := "Tools",
    address := "Cairo", numberOfEmployees := "11-20", companyEmail := "acme@gmail.com",
    companyHR := 1, createdAt := 0 }

/-- A job added by `hrH`. -/
def jobJ1 : Job :=
  { _id := 20, jobTitle := "Backend", jobLocation := "onsite", workingTime := "full-time",
    seniorityLevel := "Junior", jobDescription := "Node services", technicalSkills := ["js"],
    softSkills := ["talk"], addedBy := 1 }

/-- Another job added by `hrH`. -/
def jobJ2 : Job :=
  { _id := 21, jobTitle := "Frontend", jobLocation := "hybrid", workingTime := "part-time",
    seniorityLevel := "Senior", jobDescription := "Web pages", technicalSkills := ["css"],
    softSkills := [], addedBy := 1 }

/-- The application of `userU` to `jobJ1`. -/
def appA1 : Application :=
  { _id := 30, jobId := 20, userId := 2, userTechSkills := ["js"], userSoftSkills := [],
    userResume := "f1 cv.pdf", createdAt := 5 }

/-- Company `acme` of `hrH` with two jobs and one application. -/
def sampleStore : Store :=
  { users := [hrH, userU, hrG], companies := [acme], jobs := [jobJ1, jobJ2],
    applications := [appA1] }

/-- The token payload of `hrH`. -/
def tokenH : TokenPayload := ⟨1, Role.Company_HR⟩

/-- The token payload of `hrG`. -/
def tokenG : TokenPayload := ⟨3, Role.Company_HR⟩

/-- A stand-in for `bcryptjs`, enough to run the handlers. -/
def toyBcrypt : Bcrypt :=
  { hashSync := fun s _ => "hash:" ++ s
    compareSync := fun s h => h == "hash:" ++ s }

/-- A stand-in for `jwt.sign`. -/
def toyJwt : Jwt :=
  { sign := fun p => some ("token-" ++ toString p.userId) }

/-- A job update sent by `hrG` against a job of `hrH`: new title and a new owner. -/
def takeoverPatch : JobPatch :=
  { jobTitle := some "Taken", jobLocation := none, workingTime := none, seniorityLevel := none,
    jobDescription := none, technicalSkills := none, softSkills := none, addedBy := some 3 }

/-- A company update that changes the address only. -/
def addressPatch : CompanyPatch :=
  { companyName := none, description := none, industry := none, address := some "Giza",
    companyEmail := none, companyHR := none, numberOfEmployees := none }

/-- The database after `userU` has asked for a password reset at time 1000 and the draw
was 23456: the stored OTP is "123456" and it expires at 601000. -/
def otpStore : Store :=
  (forgetPassReq 1000 23456 sampleStore "omar.rec@gmail.com").2

/-- The record of `userU` in `otpStore`. -/
def userUIssued : User :=
  { userU with passwordResetOtp := some "123456", passwordResetOtpExpiry := some 601000 }

/-- A reset request of `userU` carrying the issued OTP. -/
def resetWithOtp : ResetPassBody :=
  { recoveryEmail := "omar.rec@gmail.com", otp := JsVal.string "123456",
    newPassword := JsVal.string "Fresh12345" }

/-- A reset request for `userU` that has no `otp` key at all. -/
def resetNoOtp : ResetPassBody :=
  { recoveryEmail := "omar.rec@gmail.com", otp := JsVal.undefined,
    newPassword := JsVal.string "Taken12345" }

/-- A sequence of `resetPass` requests, each with its own clock reading, handled one
after the other; the store after the last one. -/
def resetPassAll (bcrypt : Bcrypt) (s : Store) : List (Millis × ResetPassBody) → Store
  | [] => s
  | (now, body) :: rest => resetPassAll bcrypt (resetPass bcrypt now s body).2 rest

/-- The user that a lookup by recovery email `r` finds has no stored OTP (and ids are
unique in the User collection). -/
def otpCleared (r : String) (s : Store) : Prop :=
  idsUnique s.users
    ∧ ∃ u, findOne s.users (byRecoveryEmail r) = some u ∧ u.passwordResetOtp = none

/-- A sign-in with the email of `userU` and a password that is not theirs. -/
def signInWrongPassword : SignInBody :=
  { email := "omar@gmail.com", password := "Wrongpass1", recoveryEmail := none }

/-- A sign-in with an email no user has. -/
def signInUnknownEmail : SignInBody :=
  { email := "nobody@gmail.com", password := "Passw0rd99", recoveryEmail := none }

/-- The token payload of `userU`. -/
def tokenU : TokenPayload := ⟨2, Role.User⟩

/-- A token payload whose `userId` has no record. -/
def tokenNobody : TokenPayload := ⟨77, Role.User⟩

/-- The resume sent with an application. -/
def resumeFile : UploadedFile := { uuid := "f2", originalname := "cv.pdf" }

/-- An application to `jobJ2`. -/
def applyJ2 : ApplyBody :=
  { jobId := IdParam.valid 21, userTechSkills := ["css"], userSoftSkills := ["calm"] }

/-- An application to a job id that no Job has. -/
def applyMissingJob : ApplyBody :=
  { jobId := IdParam.valid 99, userTechSkills := [], userSoftSkills := [] }

/-- An application whose `jobId` is the text "abc". -/
def applyMalformedJob : ApplyBody :=
  { jobId := IdParam.malformed "abc", userTechSkills := [], userSoftSkills := [] }

/-- The document `applyToJob` inserts for `applyJ2` sent by `userU` with `resumeFile`,
with `_id` 31 at time 50. -/
def appA2 : Application :=
  { _id := 31, jobId := 21, userId := 2, userTechSkills := ["css"], userSoftSkills := ["calm"],
    userResume := "f2 cv.pdf", createdAt := 50 }

/-- A stored application whose `userResume` is the empty string. -/
def appNoResume : Application :=
  { _id := 32, jobId := 21, userId := 2, userTechSkills := [], userSoftSkills := [],
    userResume := "", createdAt := 60 }

/-- A server whose local time is UTC and which is asked about 2 January 1970, the day
from instant 86400000 up to 172799999. -/
def utcServer : DateEnv :=
  { parse := fun text => if text == "1970-01-02" then some 86400000 else none
    setHours := setHours 0 }

/-- An application to `jobJ1` created at 12:00:00.000 on 2 January 1970. -/
def appNoon : Application :=
  { _id := 33, jobId := 20, userId := 2, userTechSkills := ["js"], userSoftSkills := [],
    userResume := "f3 cv.pdf", createdAt := 129600000 }

/-- An application to `jobJ1` created at 23:59:59.999 on 2 January 1970. -/
def appLastMs : Application :=
  { _id := 34, jobId := 20, userId := 2, userTechSkills := ["js", "sql"], userSoftSkills := [],
    userResume := "f4 cv.pdf", createdAt := 172799999 }

/-- The sample database with the two applications of 2 January 1970. -/
def exportStore : Store :=
  { sampleStore with applications := [appNoon, appLastMs] }

/-- The sample database with the last-millisecond application only. -/
def lastMsStore : Store :=
  { sampleStore with applications := [appLastMs] }

/-- The export of `acme` for 2 January 1970. -/
def exportAcme : ExportQuery :=
  { companyId := IdParam.valid 10, date := some "1970-01-02" }

/-- An export for a company id that no Company has. -/
def exportMissing : ExportQuery :=
  { companyId := IdParam.valid 11, date := some "1970-01-02" }

/-- An export whose `companyId` is the text "abc". -/
def exportMalformed : ExportQuery :=
  { companyId := IdParam.malformed "abc", date := some "1970-01-02" }

/-- An export of `acme` with a `date` that is no date. -/
def exportGarbageDate : ExportQuery :=
  { companyId := IdParam.valid 10, date := some "garbage" }

/-- An export of `acme` without the key `date`. -/
def exportNoDate : ExportQuery := { companyId := IdParam.valid 10, date := none }

/-- A `jwt.verify` that accepts the three tokens "tH", "tU" and "tG". -/
def toyVerify : Option String → Option TokenPayload
  | some "tH" => some tokenH
  | some "tU" => some tokenU
  | some "tG" => some tokenG
  | _ => none

/-- A request of `hrH`. -/
def reqH : Request := { originalUrl := "/companies/10", token := some "tH", user := none }

/-- A request of `userU`. -/
def reqU : Request := { originalUrl := "/companies/10", token := some "tU", user := none }

/-- A request with a token that does not verify. -/
def reqForged : Request := { originalUrl := "/companies/10", token := some "xx", user := none }

/-- A `DELETE /companies/10` with a valid body: the only handler it can reach is
`deleteCompany` on company 10. -/
def deleteAcmeEnv : RouteEnv :=
  { verify := toyVerify
    joiError := fun _ => none
    uploadError := fun _ => none
    handle := fun _ user s =>
      match user with
      | some u => deleteCompany s u 10
      | none => (Outcome.threw JsError.typeError, s) }

/-- A sign-up of a new applicant. -/
def signUpBody : SignUpBody :=
  { firstName := "Nada", lastName := "New", username := "nada", email := "nada@gmail.com",
    recoveryEmail := none, password := "Secret98765", DOB := 0,
    mobileNumber := "01512345678", role := Role.User }

/-- A company update by which the owner names `userU`, whose role is User, as
`companyHR`. -/
def handoverPatch : CompanyPatch :=
  { companyName := none, description := none, industry := none, address := none,
    companyEmail := none, companyHR := some 2, numberOfEmployees := none }

/-- A second company for `hrH`. -/
def addBeta : AddCompanyBody :=
  { companyName := "Beta", description := "Makes the rest", industry := "Tools",
    address := "Giza", numberOfEmployees := "1-10", companyEmail := "beta@gmail.com",
    companyHR := none }

/-- A sign-in of `userU` with the right password and no `recoveryEmail` key. -/
def signInOmar : SignInBody :=
  { email := "omar@gmail.com", password := "Passw0rd99", recoveryEmail := none }

/-- The same sign-in carrying the recovery email of `hrH`. -/
def signInOmarOtherRecovery : SignInBody :=
  { email := "omar@gmail.com", password := "Passw0rd99",
    recoveryEmail := some "hana.rec@gmail.com" }

/-- A company whose body names `hrG` as `companyHR`. -/
def addGamma : AddCompanyBody :=
  { companyName := "Gamma", description := "Makes more", industry := "Tools",
    address := "Luxor", numberOfEmployees := "1-10", companyEmail := "gamma@gmail.com",
    companyHR := some 3 }

/-- A job whose body names `hrG` as `addedBy`. -/
def addJobBody : AddJobBody :=
  { jobTitle := "Tester", jobLocation := "remotely", workingTime := "full-time",
    seniorityLevel := "Junior", jobDescription := "Tests the services",
    technicalSkills := some ["js"], softSkills := none, addedBy := some 3 }

/-- A job of `hrG`, added to the sample database to have a second owner. -/
def jobG : Job :=
  { _id := 22, jobTitle := "Ops", jobLocation := "onsite", workingTime := "full-time",
    seniorityLevel := "Senior", jobDescription := "Runs the servers", technicalSkills := [],
    softSkills := [], addedBy := 3 }

/-- The company of `hrG`. -/
def globex : Company :=
  { _id := 12, companyName := "Globex", description := "Makes other things", industry := "Tools",
    address := "Aswan", numberOfEmployees := "1-10", companyEmail := "globex@gmail.com",
    companyHR := 3, createdAt := 1 }

/-- An application of `userU` to `jobG`. -/
def appG : Application :=
  { _id := 35, jobId := 22, userId := 2, userTechSkills := [], userSoftSkills := [],
    userResume := "f5 cv.pdf", createdAt := 9 }

/-- Two companies, `acme` of `hrH` and `globex` of `hrG`, each with jobs and an
application. -/
def twoOwnersStore : Store :=
  { users := [hrH, userU, hrG], companies := [acme, globex], jobs := [jobJ1, jobJ2, jobG],
    applications := [appA1, appG] }

/-- An account update of `userU` asking for the email of `hrH`. -/
def takeEmail : UpdateAccBody :=
  { email := some "hana@gmail.com", recoveryEmail := none, DOB := none, mobileNumber := none,
    firstName := none, lastName := none }

/-- An account update of `userU` asking for the mobile number of `hrH` and a new first
name. -/
def takeMobile : UpdateAccBody :=
  { email := none, recoveryEmail := none, DOB := none, mobileNumber := some "01012345678",
    firstName := some "Omer", lastName := none }

/-- An account update of `userU` that changes the first name only. -/
def renameOmar : UpdateAccBody :=
  { email := none, recoveryEmail := none, DOB := none, mobileNumber := none,
    firstName := some "Omer", lastName := none }

/-- The route `POST /companies/addCompany`. -/
def addCompanyRoute : Route :=
  ⟨"POST", "/addCompany",
    [.validate "addCompanyVal", .verifyToken, .roleVal, .handler "addCompany"]⟩

/-- A company like `addBeta` whose name has one letter; `addCompanyVal` asks for two. -/
def addShortName : AddCompanyBody :=
  { companyName := "B", description := "Makes the rest", industry := "Tools",
    address := "Giza", numberOfEmployees := "1-10", companyEmail := "beta@gmail.com",
    companyHR := none }

/-- A `POST /companies/addCompany` with the body `addBeta`, which passes
`addCompanyVal`. -/
def addBetaEnv : RouteEnv :=
  { verify := toyVerify
    joiError := fun _ => none
    uploadError := fun _ => none
    handle := fun _ user s =>
      match user with
      | some u => addCompany 11 80 s u addBeta
      | none => (Outcome.threw JsError.typeError, s) }

/-- A `POST /companies/addCompany` with the body `addShortName`: under `addCompanyVal`
Joi reports one error, on the length of `companyName`. -/
def addShortNameEnv : RouteEnv :=
  { verify := toyVerify
    joiError := fun schema =>
      if schema == "addCompanyVal" then
        some ["companyName length must be at least 2 characters long"]
      else none
    uploadError := fun _ => none
    handle := fun _ user s =>
      match user with
      | some u => addCompany 11 80 s u addShortName
      | none => (Outcome.threw JsError.typeError, s) }

/-- A company whose body takes the name of `acme` and names `hrG` as `companyHR`. -/
def addAcmeTwin : AddCompanyBody :=
  { companyName := "Acme", description := "Makes the same", industry := "Tools",
    address := "Aswan", numberOfEmployees := "1-10", companyEmail := "twin@gmail.com",
    companyHR := some 3 }

/-! ## Lemmas on the statics -/

theorem findById_some_oid {α : Type} [Doc α] (xs : List α) (id : ObjectId) (d : α)
    (h : findById xs id = some d) : Doc.oid d = id := by
  unfold findById at h
  have := List.find?_some h
  simpa using this

theorem findById_some_mem {α : Type} [Doc α] (xs : List α) (id : ObjectId) (d : α)
    (h : findById xs id = some d) : d ∈ xs := by
  unfold findById at h
  exact List.mem_of_find?_eq_some h

theorem eraseP_oid_absent {α : Type} [Doc α] (xs : List α) (id : ObjectId)
    (hu : idsUnique xs) :
    ∀ d ∈ xs.eraseP (fun d => Doc.oid d == id), Doc.oid d ≠ id := by
  induction xs with
  | nil => intro d hd; simp at hd
  | cons x xs ih =>
    unfold idsUnique at hu ih
    simp only [List.map_cons, List.nodup_cons] at hu
    intro d hd
    by_cases hx : Doc.oid x = id
    · have : (x :: xs).eraseP (fun d => Doc.oid d == id) = xs := by
        simp [List.eraseP_cons, hx]
      rw [this] at hd
      intro hd2
      apply hu.1
      rw [hx, ← hd2]
      exact List.mem_map_of_mem _ hd
    · have : (x :: xs).eraseP (fun d => Doc.oid d == id)
          = x :: xs.eraseP (fun d => Doc.oid d == id) := by
        simp [List.eraseP_cons, hx]
      rw [this] at hd
      rcases List.mem_cons.mp hd with h | h
      · rw [h]; exact hx
      · exact ih hu.2 d h

/-- C1. A `deleteCompany` request by the company's `companyHR` completes with the success
response; afterwards no Company has the deleted id (the deleted document is gone), no Job
has `addedBy` equal to that `companyHR`, and no Application has the `jobId` of a Job that
this HR had added. -/
theorem deleteCompany_cascade (s : Store) (user : TokenPayload) (companyId : ObjectId)
    (company : Company)
    (hids : idsUnique s.companies)
    (hfound : findById s.companies companyId = some company)
    (howner : company.companyHR = user.userId) :
    (deleteCompany s user companyId).1
        = Outcome.sent 200 (Body.message "Company deleted successfully")
      ∧ findById (deleteCompany s user companyId).2.companies companyId = none
      ∧ company ∉ (deleteCompany s user companyId).2.companies
      ∧ (∀ j ∈ (deleteCompany s user companyId).2.jobs, j.addedBy ≠ company.companyHR)
      ∧ (∀ a ∈ (deleteCompany s user companyId).2.applications,
          ∀ j ∈ s.jobs, j.addedBy = company.companyHR → a.jobId ≠ j._id) := by
  have hab := eraseP_oid_absent s.companies companyId hids
  have hcid : company._id = companyId := findById_some_oid s.companies companyId company hfound
  simp only [deleteCompany, hfound, howner, bne_self_eq_false, Bool.false_eq_true, if_false,
    findByIdAndDelete, deleteMany, find]
  refine ⟨trivial, ?_, ?_, ?_, ?_⟩
  · unfold findById
    rw [List.find?_eq_none]
    intro d hd
    simpa using hab d hd
  · intro hmem
    exact hab company hmem hcid
  · intro j hj
    have := (List.mem_filter.mp hj).2
    simpa [howner] using this
  · intro a ha j hj hjo hEq
    have h2 := (List.mem_filter.mp ha).2
    have hin : a.jobId ∈ List.map (fun job => job._id)
        (List.filter (fun j => j.addedBy == user.userId) s.jobs) := by
      rw [hEq]
      apply List.mem_map_of_mem
      apply List.mem_filter.mpr
      exact ⟨hj, by simp [hjo, howner]⟩
    simp at h2
    simp at hin
    obtain ⟨j2, ⟨hj2, hj2o⟩, hj2id⟩ := hin
    exact h2 j2 hj2 hj2o hj2id

/-- Witness of C1 on the sample database: `hrH` deletes `acme`. -/
theorem deleteCompany_cascade_witness :
    idsUnique sampleStore.companies
      ∧ findById sampleStore.companies 10 = some acme
      ∧ acme.companyHR = tokenH.userId
      ∧ ((deleteCompany sampleStore tokenH 10).1
          = Outcome.sent 200 (Body.message "Company deleted successfully")
        ∧ findById (deleteCompany sampleStore tokenH 10).2.companies 10 = none
        ∧ acme ∉ (deleteCompany sampleStore tokenH 10).2.companies
        ∧ (∀ j ∈ (deleteCompany sampleStore tokenH 10).2.jobs, j.addedBy ≠ acme.companyHR)
        ∧ (∀ a ∈ (deleteCompany sampleStore tokenH 10).2.applications,
            ∀ j ∈ sampleStore.jobs, j.addedBy = acme.companyHR → a.jobId ≠ j._id)) :=
  ⟨by decide, by decide, by decide,
    deleteCompany_cascade sampleStore tokenH 10 acme (by decide) (by decide) (by decide)⟩

/-- C2. A `deleteJob` request by the Job's `addedBy` completes with the success response
carrying the deleted Job; afterwards no Job has the deleted id and no Application has
`jobId` equal to it. -/
theorem deleteJob_cascade (s : Store) (user : TokenPayload) (jobId : ObjectId) (job : Job)
    (hids : idsUnique s.jobs)
    (hfound : findById s.jobs jobId = some job)
    (howner : job.addedBy = user.userId) :
    (deleteJob s user jobId).1 = Outcome.sent 200 (Body.job "success" (some job))
      ∧ findById (deleteJob s user jobId).2.jobs jobId = none
      ∧ job ∉ (deleteJob s user jobId).2.jobs
      ∧ (∀ a ∈ (deleteJob s user jobId).2.applications, a.jobId ≠ jobId) := by
  have hab := eraseP_oid_absent s.jobs jobId hids
  have hjid : job._id = jobId := findById_some_oid s.jobs jobId job hfound
  simp only [deleteJob, hfound, howner, bne_self_eq_false, Bool.false_eq_true, if_false,
    findByIdAndDelete, deleteMany]
  refine ⟨trivial, ?_, ?_, ?_⟩
  · unfold findById
    rw [List.find?_eq_none]
    intro d hd
    simpa using hab d hd
  · intro hmem
    exact hab job hmem hjid
  · intro a ha
    have := (List.mem_filter.mp ha).2
    simpa using this

/-- Witness of C2 on the sample database: `hrH` deletes `jobJ1`. -/
theorem deleteJob_cascade_witness :
    idsUnique sampleStore.jobs
      ∧ findById sampleStore.jobs 20 = some jobJ1
      ∧ jobJ1.addedBy = tokenH.userId
      ∧ ((deleteJob sampleStore tokenH 20).1 = Outcome.sent 200 (Body.job "success" (some jobJ1))
        ∧ findById (deleteJob sampleStore tokenH 20).2.jobs 20 = none
        ∧ jobJ1 ∉ (deleteJob sampleStore tokenH 20).2.jobs
        ∧ (∀ a ∈ (deleteJob sampleStore tokenH 20).2.applications, a.jobId ≠ 20)) :=
  ⟨by decide, by decide, by decide,
    deleteJob_cascade sampleStore tokenH 20 jobJ1 (by decide) (by decide) (by decide)⟩

/-- Whatever the store and the caller, `deleteAcc` stops at the unbound identifier
`Token`: the promise rejects with a `ReferenceError` and the User collection is as it
was. -/
theorem deleteAcc_stops_at_Token (s : Store) (user : TokenPayload) :
    (deleteAcc s user).1 = Outcome.threw (JsError.referenceError "Token")
      ∧ (deleteAcc s user).2.users = s.users := by
  have hres : resolveIdentifier "Token" = Except.error (JsError.referenceError "Token") := by
    rfl
  unfold deleteAcc
  simp only [hres]
  refine ⟨trivial, ?_⟩
  cases findOne s.companies (fun c => c.companyHR == user.userId) <;> rfl

/-- C3 (code at the failing input). On the sample database the authenticated owner `hrH`
calls `deleteAcc`: the company, both jobs and the application are removed, then the
handler throws at `Token`; no success response is sent and the record of `hrH` is still
in the User collection. -/
theorem deleteAcc_keeps_user_record :
    findById sampleStore.users tokenH.userId = some hrH
      ∧ (deleteAcc sampleStore tokenH).1 = Outcome.threw (JsError.referenceError "Token")
      ∧ findById (deleteAcc sampleStore tokenH).2.users tokenH.userId = some hrH
      ∧ (deleteAcc sampleStore tokenH).2
          = { users := [hrH, userU, hrG], companies := [], jobs := [], applications := [] } := by
  decide

/-- C4. For an existing Company and a `Company_HR` caller who is not its `companyHR`,
`updateComData` (with any body) and `deleteCompany` both call `next` with the 403
"Access denied" error and return the store as it was. -/
theorem company_non_owner_forbidden (s : Store) (user : TokenPayload) (companyId : ObjectId)
    (company : Company) (body : CompanyPatch)
    (hfound : findById s.companies companyId = some company)
    (_hrole : user.role = Role.Company_HR)
    (hother : user.userId ≠ company.companyHR) :
    updateComData s user companyId body
        = (Outcome.next ⟨"Access denied", some 403⟩, s)
      ∧ deleteCompany s user companyId
        = (Outcome.next ⟨"Access denied", some 403⟩, s) := by
  have hne : (company.companyHR != user.userId) = true := by
    simpa [bne_iff_ne] using (Ne.symm hother)
  constructor
  · simp only [updateComData, hfound, hne, if_true]
  · simp only [deleteCompany, hfound, hne, if_true]

/-- Witness of C4 on the sample database: `hrG` against `acme` of `hrH`. -/
theorem company_non_owner_forbidden_witness :
    findById sampleStore.companies 10 = some acme
      ∧ tokenG.role = Role.Company_HR
      ∧ tokenG.userId ≠ acme.companyHR
      ∧ (updateComData sampleStore tokenG 10 addressPatch
            = (Outcome.next ⟨"Access denied", some 403⟩, sampleStore)
          ∧ deleteCompany sampleStore tokenG 10
            = (Outcome.next ⟨"Access denied", some 403⟩, sampleStore)) :=
  ⟨by decide, by decide, by decide,
    company_non_owner_forbidden sampleStore tokenG 10 acme addressPatch
      (by decide) (by decide) (by decide)⟩

/-- The `deleteJob` half of C5: a caller who is not the Job's `addedBy` gets the 403
"Access Denied not owner" error and the store is as it was. -/
theorem deleteJob_non_owner_forbidden (s : Store) (user : TokenPayload) (jobId : ObjectId)
    (job : Job)
    (hfound : findById s.jobs jobId = some job)
    (hother : user.userId ≠ job.addedBy) :
    deleteJob s user jobId = (Outcome.next ⟨"Access Denied not owner", some 403⟩, s) := by
  have hne : (job.addedBy != user.userId) = true := by
    simpa [bne_iff_ne] using (Ne.symm hother)
  simp only [deleteJob, hfound, hne, if_true]

/-- The outcome of `updateJob` does not depend on the caller: for an existing Job it is
the 200 response with the rewritten Job, whoever calls. -/
theorem updateJob_any_caller (s : Store) (user : TokenPayload) (jobId : ObjectId) (job : Job)
    (body : JobPatch) (hfound : findById s.jobs jobId = some job) :
    updateJob s user jobId body
      = (Outcome.sent 200 (Body.job "success" (some (body.apply job))),
          { s with jobs := updateById s.jobs jobId body.apply }) := by
  simp only [updateJob, hfound]

/-- C5 (code at the failing input). On the sample database `hrG`, a `Company_HR` who is
not the `addedBy` of `jobJ1`, calls `updateJob` on it: the answer is 200 "success", not
403, and the stored Job has the new title and `hrG` as `addedBy`. -/
theorem updateJob_non_owner_succeeds :
    findById sampleStore.jobs 20 = some jobJ1
      ∧ tokenG.role = Role.Company_HR
      ∧ tokenG.userId ≠ jobJ1.addedBy
      ∧ (updateJob sampleStore tokenG 20 takeoverPatch).1
          = Outcome.sent 200 (Body.job "success"
              (some { jobJ1 with jobTitle := "Taken", addedBy := 3 }))
      ∧ (updateJob sampleStore tokenG 20 takeoverPatch).2.jobs
          = [{ jobJ1 with jobTitle := "Taken", addedBy := 3 }, jobJ2]
      ∧ (updateJob sampleStore tokenG 20 takeoverPatch).2.jobs ≠ sampleStore.jobs := by
  decide

/-! ## Password reset -/

theorem oid_injOn {α : Type} [Doc α] (xs : List α) (hu : idsUnique xs) (a b : α)
    (ha : a ∈ xs) (hb : b ∈ xs) (h : Doc.oid a = Doc.oid b) : a = b :=
  List.inj_on_of_nodup_map hu ha hb h

theorem updateById_eq_map {α : Type} [Doc α] (xs : List α) (id : ObjectId) (f : α → α)
    (hu : idsUnique xs) :
    updateById xs id f = xs.map (fun d => if Doc.oid d == id then f d else d) := by
  induction xs with
  | nil => rfl
  | cons x xs ih =>
    unfold idsUnique at hu ih
    simp only [List.map_cons, List.nodup_cons] at hu
    by_cases hx : Doc.oid x = id
    · have hrest : xs.map (fun d => if Doc.oid d == id then f d else d) = xs := by
        conv_rhs => rw [← List.map_id xs]
        apply List.map_congr_left
        intro d hd
        have hne : Doc.oid d ≠ id := by
          intro h
          apply hu.1
          rw [hx, ← h]
          exact List.mem_map_of_mem _ hd
        simp [hne]
      rw [List.map_cons, hrest]
      simp [updateById, hx]
    · rw [List.map_cons, ← ih hu.2]
      simp [updateById, hx]

theorem map_oid_updateById {α : Type} [Doc α] (xs : List α) (id : ObjectId) (f : α → α)
    (hf : ∀ d, Doc.oid d = id → Doc.oid (f d) = id) :
    (updateById xs id f).map Doc.oid = xs.map Doc.oid := by
  induction xs with
  | nil => rfl
  | cons x xs ih =>
    by_cases hx : Doc.oid x = id
    · simp [updateById, hx, hf x hx]
    · simp [updateById, hx, ih]

theorem idsUnique_updateById {α : Type} [Doc α] (xs : List α) (id : ObjectId) (f : α → α)
    (hf : ∀ d, Doc.oid d = id → Doc.oid (f d) = id) (hu : idsUnique xs) :
    idsUnique (updateById xs id f) := by
  unfold idsUnique at *
  rw [map_oid_updateById xs id f hf]
  exact hu

theorem find?_map_of_preserved {α : Type} (xs : List α) (g : α → α) (p : α → Bool)
    (h : ∀ d ∈ xs, p (g d) = p d) :
    (xs.map g).find? p = (xs.find? p).map g := by
  induction xs with
  | nil => rfl
  | cons x xs ih =>
    have hx : p (g x) = p x := h x (List.mem_cons_self _ _)
    have hxs : ∀ d ∈ xs, p (g d) = p d := fun d hd => h d (List.mem_cons_of_mem _ hd)
    cases hpx : p x
    · simp [List.find?_cons, hx, hpx, ih hxs]
    · simp [List.find?_cons, hx, hpx]

/-- Looking a document up after another one, `v`, has been rewritten to a document `v1`
with the same answer to the filter. -/
theorem findOne_updateById {α : Type} [Doc α] (xs : List α) (p : α → Bool) (v v1 : α)
    (hu : idsUnique xs) (hv : v ∈ xs) (hp : p v1 = p v) :
    findOne (updateById xs (Doc.oid v) (fun _ => v1)) p
      = (findOne xs p).map (fun d => if Doc.oid d == Doc.oid v then v1 else d) := by
  unfold findOne
  rw [updateById_eq_map xs (Doc.oid v) (fun _ => v1) hu]
  apply find?_map_of_preserved
  intro d hd
  by_cases hd2 : Doc.oid d = Doc.oid v
  · have : d = v := oid_injOn xs hu d v hd hv hd2
    simp [hd2, hp, this]
  · simp [hd2]

/-- C6 (counterexample). In `otpStore` the stored OTP of `userU` is "123456" with expiry
601000. A request with that OTP at the very instant `now = 601000` is accepted and the
password is replaced, although `now < expiry` is false: success is not equivalent to
"OTP equal and `now < expiry`". -/
theorem resetPass_accepts_at_expiry :
    findOne otpStore.users (byRecoveryEmail resetWithOtp.recoveryEmail) = some userUIssued
      ∧ (resetPass toyBcrypt 601000 otpStore resetWithOtp).1
          = Outcome.sent 200 (Body.message "Password has been reset successfully")
      ∧ findOne (resetPass toyBcrypt 601000 otpStore resetWithOtp).2.users
            (byRecoveryEmail resetWithOtp.recoveryEmail)
          = some (passwordReplaced userUIssued "hash:Fresh12345")
      ∧ ¬ ((resetPass toyBcrypt 601000 otpStore resetWithOtp).1
              = Outcome.sent 200 (Body.message "Password has been reset successfully")
            ↔ (resetWithOtp.otp = JsVal.string "123456" ∧ 601000 < 601000)) := by
  decide

theorem strictNe_some_eq_false (otp : String) (v : JsVal) :
    strictNe (some otp) v = false ↔ v = JsVal.string otp := by
  cases v with
  | string b =>
    simp only [strictNe, bne_eq_false_iff_eq, beq_iff_eq, JsVal.string.injEq]
    exact eq_comm
  | undefined => simp [strictNe]
  | null => simp [strictNe]
  | bool b => simp [strictNe]
  | number n => simp [strictNe]
  | object => simp [strictNe]

theorem nowAfter_some_eq_false (now expiry : Millis) :
    nowAfter now (some expiry) = false ↔ now ≤ expiry := by
  simp [nowAfter]

/-- The guard of `resetPass` for a user whose OTP and expiry are both stored. -/
theorem resetPass_guard_issued (otp : String) (expiry now : Millis) (v : JsVal) :
    (strictNe (some otp) v || nowAfter now (some expiry)) = false
      ↔ (v = JsVal.string otp ∧ now ≤ expiry) := by
  rw [Bool.or_eq_false_iff, strictNe_some_eq_false, nowAfter_some_eq_false]

/-- The saved document is the one a later lookup by the same recovery email finds. -/
theorem findOne_after_save (xs : List User) (r : String) (user : User) (hash : String)
    (hids : idsUnique xs) (hfound : findOne xs (byRecoveryEmail r) = some user) :
    findOne (updateById xs user._id (fun _ => passwordReplaced user hash)) (byRecoveryEmail r)
      = some (passwordReplaced user hash) := by
  have hmem : user ∈ xs := List.mem_of_find?_eq_some hfound
  have h := findOne_updateById xs (byRecoveryEmail r) user (passwordReplaced user hash)
    hids hmem rfl
  have hoid : Doc.oid user = user._id := rfl
  rw [hoid] at h
  rw [h, hfound]
  simp [Doc.oid]

/-- C6 (amended). For a user found by `recoveryEmail` whose OTP and expiry are stored, and
a request whose `newPassword` is a string: `resetPass` answers with the success response
if and only if the supplied `otp` is the stored string and `now ≤ expiry`; in that case
the found user's password is the hash of the new password, and otherwise the answer is
the "Invalid or expired OTP." error with the store as it was. -/
theorem resetPass_succeeds_iff (bcrypt : Bcrypt) (now : Millis) (s : Store)
    (body : ResetPassBody) (user : User) (otp : String) (expiry : Millis)
    (newPassword : String)
    (hids : idsUnique s.users)
    (hfound : findOne s.users (byRecoveryEmail body.recoveryEmail) = some user)
    (hotp : user.passwordResetOtp = some otp)
    (hexp : user.passwordResetOtpExpiry = some expiry)
    (hpw : body.newPassword = JsVal.string newPassword) :
    ((resetPass bcrypt now s body).1
          = Outcome.sent 200 (Body.message "Password has been reset successfully")
        ↔ (body.otp = JsVal.string otp ∧ now ≤ expiry))
      ∧ ((body.otp = JsVal.string otp ∧ now ≤ expiry) →
          findOne (resetPass bcrypt now s body).2.users (byRecoveryEmail body.recoveryEmail)
            = some (passwordReplaced user (bcrypt.hashSync newPassword 8)))
      ∧ (¬ (body.otp = JsVal.string otp ∧ now ≤ expiry) →
          resetPass bcrypt now s body
            = (Outcome.next ⟨"Invalid or expired OTP.", some 404⟩, s)) := by
  have hg := resetPass_guard_issued otp expiry now body.otp
  by_cases hc : body.otp = JsVal.string otp ∧ now ≤ expiry
  · have hgf : (strictNe (some otp) body.otp || nowAfter now (some expiry)) = false := hg.mpr hc
    have hrun : resetPass bcrypt now s body
        = (Outcome.sent 200 (Body.message "Password has been reset successfully"),
            { s with users := (updateById s.users user._id
                (fun _ => passwordReplaced user (bcrypt.hashSync newPassword 8))) }) := by
      simp only [resetPass, hfound, hotp, hexp, hgf, hpw, Bool.false_eq_true, if_false]
    refine ⟨?_, ?_, ?_⟩
    · rw [hrun]; exact ⟨fun _ => hc, fun _ => rfl⟩
    · intro _
      rw [hrun]
      exact findOne_after_save s.users body.recoveryEmail user _ hids hfound
    · intro hn; exact absurd hc hn
  · have hgt : (strictNe (some otp) body.otp || nowAfter now (some expiry)) = true := by
      cases hb : (strictNe (some otp) body.otp || nowAfter now (some expiry))
      · exact absurd (hg.mp hb) hc
      · rfl
    have hrun : resetPass bcrypt now s body
        = (Outcome.next ⟨"Invalid or expired OTP.", some 404⟩, s) := by
      simp only [resetPass, hfound, hotp, hexp, hgt, if_true]
    refine ⟨?_, ?_, ?_⟩
    · rw [hrun]
      constructor
      · intro h; cases h
      · intro h; exact absurd h hc
    · intro h; exact absurd h hc
    · intro _; exact hrun

/-- Witness of C6 (amended) on `otpStore`: the issued OTP, supplied at time 2000. -/
theorem resetPass_succeeds_iff_witness :
    idsUnique otpStore.users
      ∧ findOne otpStore.users (byRecoveryEmail resetWithOtp.recoveryEmail) = some userUIssued
      ∧ userUIssued.passwordResetOtp = some "123456"
      ∧ userUIssued.passwordResetOtpExpiry = some 601000
      ∧ resetWithOtp.newPassword = JsVal.string "Fresh12345"
      ∧ (((resetPass toyBcrypt 2000 otpStore resetWithOtp).1
              = Outcome.sent 200 (Body.message "Password has been reset successfully")
            ↔ (resetWithOtp.otp = JsVal.string "123456" ∧ 2000 ≤ 601000))
          ∧ ((resetWithOtp.otp = JsVal.string "123456" ∧ 2000 ≤ 601000) →
              findOne (resetPass toyBcrypt 2000 otpStore resetWithOtp).2.users
                  (byRecoveryEmail resetWithOtp.recoveryEmail)
                = some (passwordReplaced userUIssued (toyBcrypt.hashSync "Fresh12345" 8)))
          ∧ (¬ (resetWithOtp.otp = JsVal.string "123456" ∧ 2000 ≤ 601000) →
              resetPass toyBcrypt 2000 otpStore resetWithOtp
                = (Outcome.next ⟨"Invalid or expired OTP.", some 404⟩, otpStore))) :=
  ⟨by decide, by decide, by decide, by decide, by decide,
    resetPass_succeeds_iff toyBcrypt 2000 otpStore resetWithOtp userUIssued "123456" 601000
      "Fresh12345" (by decide) (by decide) (by decide) (by decide) (by decide)⟩

/-- Whenever the looked-up user has neither OTP nor expiry stored, a request without an
`otp` key and with a string `newPassword` passes the guard at any time. -/
theorem resetPass_without_otp (bcrypt : Bcrypt) (now : Millis) (s : Store)
    (body : ResetPassBody) (user : User) (newPassword : String)
    (hfound : findOne s.users (byRecoveryEmail body.recoveryEmail) = some user)
    (hotp : user.passwordResetOtp = none)
    (hexp : user.passwordResetOtpExpiry = none)
    (hbody : body.otp = JsVal.undefined)
    (hpw : body.newPassword = JsVal.string newPassword) :
    resetPass bcrypt now s body
      = (Outcome.sent 200 (Body.message "Password has been reset successfully"),
          { s with users := (updateById s.users user._id
              (fun _ => passwordReplaced user (bcrypt.hashSync newPassword 8))) }) := by
  simp [resetPass, hfound, hotp, hexp, hbody, hpw, strictNe, nowAfter]

/-- C8 (code at the failing input). In the sample database `userU` never asked for a
reset (no OTP, no expiry stored). The request `resetNoOtp`, which has no `otp` key, is
answered with the success response and the stored password of `userU` is replaced. -/
theorem resetPass_without_request_succeeds :
    findOne sampleStore.users (byRecoveryEmail resetNoOtp.recoveryEmail) = some userU
      ∧ userU.passwordResetOtp = none
      ∧ userU.passwordResetOtpExpiry = none
      ∧ resetNoOtp.otp = JsVal.undefined
      ∧ (resetPass toyBcrypt 5 sampleStore resetNoOtp).1
          = Outcome.sent 200 (Body.message "Password has been reset successfully")
      ∧ (resetPass toyBcrypt 5 sampleStore resetNoOtp).2.users
          = [hrH, { userU with password := "hash:Taken12345" }, hrG] := by
  decide

/-- C9. For a found user in state OtpIssued (OTP and expiry stored), a request whose
`otp` is not the stored string, or that arrives after the expiry, gets the
"Invalid or expired OTP." error; the store is returned as it was, so the lookup still
yields the same document with the same password, OTP and expiry. -/
theorem resetPass_guard_failure_keeps_state (bcrypt : Bcrypt) (now : Millis) (s : Store)
    (body : ResetPassBody) (user : User) (otp : String) (expiry : Millis)
    (hfound : findOne s.users (byRecoveryEmail body.recoveryEmail) = some user)
    (hotp : user.passwordResetOtp = some otp)
    (hexp : user.passwordResetOtpExpiry = some expiry)
    (hguard : body.otp ≠ JsVal.string otp ∨ expiry < now) :
    resetPass bcrypt now s body = (Outcome.next ⟨"Invalid or expired OTP.", some 404⟩, s)
      ∧ findOne (resetPass bcrypt now s body).2.users (byRecoveryEmail body.recoveryEmail)
          = some user := by
  have hgt : (strictNe (some otp) body.otp || nowAfter now (some expiry)) = true := by
    cases hb : (strictNe (some otp) body.otp || nowAfter now (some expiry))
    · have h := (resetPass_guard_issued otp expiry now body.otp).mp hb
      rcases hguard with h1 | h2
      · exact absurd h.1 h1
      · exact absurd h.2 (Nat.not_le.mpr h2)
    · rfl
  have hrun : resetPass bcrypt now s body
      = (Outcome.next ⟨"Invalid or expired OTP.", some 404⟩, s) := by
    simp only [resetPass, hfound, hotp, hexp, hgt, if_true]
  exact ⟨hrun, by rw [hrun]; exact hfound⟩

/-- Witness of C9 on `otpStore`: the right OTP, one millisecond after the expiry. -/
theorem resetPass_guard_failure_keeps_state_witness :
    findOne otpStore.users (byRecoveryEmail resetWithOtp.recoveryEmail) = some userUIssued
      ∧ userUIssued.passwordResetOtp = some "123456"
      ∧ userUIssued.passwordResetOtpExpiry = some 601000
      ∧ (resetWithOtp.otp ≠ JsVal.string "123456" ∨ 601000 < 601001)
      ∧ (resetPass toyBcrypt 601001 otpStore resetWithOtp
            = (Outcome.next ⟨"Invalid or expired OTP.", some 404⟩, otpStore)
          ∧ findOne (resetPass toyBcrypt 601001 otpStore resetWithOtp).2.users
              (byRecoveryEmail resetWithOtp.recoveryEmail) = some userUIssued) :=
  ⟨by decide, by decide, by decide, by decide,
    resetPass_guard_failure_keeps_state toyBcrypt 601001 otpStore resetWithOtp userUIssued
      "123456" 601000 (by decide) (by decide) (by decide) (by decide)⟩

/-- The only write of `resetPass` is the save of the found user with a new hash and the
two reset paths unset. -/
theorem resetPass_store (bcrypt : Bcrypt) (now : Millis) (s : Store) (body : ResetPassBody) :
    (resetPass bcrypt now s body).2 = s
      ∨ ∃ user hash, findOne s.users (byRecoveryEmail body.recoveryEmail) = some user
          ∧ (resetPass bcrypt now s body).2
              = { s with users := (updateById s.users user._id
                  (fun _ => passwordReplaced user hash)) } := by
  unfold resetPass
  split
  · left; rfl
  · rename_i user hfound
    split
    · left; rfl
    · split
      · right; exact ⟨user, _, hfound, rfl⟩
      · left; rfl

/-- A success response of `resetPass` comes with that write. -/
theorem resetPass_sent_store (bcrypt : Bcrypt) (now : Millis) (s : Store)
    (body : ResetPassBody) (status : Nat) (b : Body)
    (hsent : (resetPass bcrypt now s body).1 = Outcome.sent status b) :
    ∃ user hash, findOne s.users (byRecoveryEmail body.recoveryEmail) = some user
      ∧ (resetPass bcrypt now s body).2
          = { s with users := (updateById s.users user._id
              (fun _ => passwordReplaced user hash)) } := by
  cases hfound : findOne s.users (byRecoveryEmail body.recoveryEmail) with
  | none => simp [resetPass, hfound] at hsent
  | some user =>
    by_cases hg : (strictNe user.passwordResetOtp body.otp
        || nowAfter now user.passwordResetOtpExpiry) = true
    · simp [resetPass, hfound, hg] at hsent
    · cases hpw : body.newPassword with
      | string pw =>
        refine ⟨user, bcrypt.hashSync pw 8, rfl, ?_⟩
        simp only [resetPass, hfound, hg, hpw, Bool.false_eq_true, if_false]
      | undefined => simp [resetPass, hfound, hg, hpw] at hsent
      | null => simp [resetPass, hfound, hg, hpw] at hsent
      | bool x => simp [resetPass, hfound, hg, hpw] at hsent
      | number x => simp [resetPass, hfound, hg, hpw] at hsent
      | object => simp [resetPass, hfound, hg, hpw] at hsent

theorem otpCleared_after_write (r : String) (s : Store) (v : User) (hash : String)
    (hids : idsUnique s.users) (hv : v ∈ s.users)
    (hlook : ∀ u, findOne s.users (byRecoveryEmail r) = some u →
      u.passwordResetOtp = none ∨ u = v)
    (hsome : (findOne s.users (byRecoveryEmail r)).isSome = true) :
    otpCleared r { s with users := (updateById s.users v._id
      (fun _ => passwordReplaced v hash)) } := by
  constructor
  · apply idsUnique_updateById s.users v._id _ _ hids
    intro d _
    rfl
  · have h := findOne_updateById s.users (byRecoveryEmail r) v (passwordReplaced v hash)
      hids hv rfl
    have hoid : Doc.oid v = v._id := rfl
    rw [hoid] at h
    obtain ⟨u, hu⟩ := Option.isSome_iff_exists.mp hsome
    refine ⟨if Doc.oid u == v._id then passwordReplaced v hash else u, ?_, ?_⟩
    · show findOne (updateById s.users v._id (fun _ => passwordReplaced v hash))
        (byRecoveryEmail r) = _
      rw [h, hu]
      rfl
    · by_cases hid : Doc.oid u = v._id
      · simp [hid, passwordReplaced]
      · have hne : u ≠ v := fun he => hid (by rw [he]; rfl)
        rcases hlook u hu with h1 | h1
        · simp [hid, h1]
        · exact absurd h1 hne

/-- After a success response the user found by that recovery email has no stored OTP. -/
theorem otpCleared_after_success (bcrypt : Bcrypt) (now : Millis) (s : Store)
    (body : ResetPassBody) (status : Nat) (b : Body)
    (hids : idsUnique s.users)
    (hsent : (resetPass bcrypt now s body).1 = Outcome.sent status b) :
    otpCleared body.recoveryEmail (resetPass bcrypt now s body).2 := by
  obtain ⟨user, hash, hfound, hstore⟩ := resetPass_sent_store bcrypt now s body status b hsent
  rw [hstore]
  apply otpCleared_after_write body.recoveryEmail s user hash hids
    (List.mem_of_find?_eq_some hfound)
  · intro u hu
    right
    rw [hfound] at hu
    exact (Option.some.inj hu).symm
  · rw [hfound]; rfl

/-- No `resetPass` request, for whichever user, stores an OTP. -/
theorem otpCleared_step (bcrypt : Bcrypt) (now : Millis) (s : Store) (body : ResetPassBody)
    (r : String) (h : otpCleared r s) :
    otpCleared r (resetPass bcrypt now s body).2 := by
  rcases resetPass_store bcrypt now s body with hsame | ⟨v, hash, hfound, hstore⟩
  · rw [hsame]; exact h
  · rw [hstore]
    obtain ⟨hids, u, hu, hnone⟩ := h
    apply otpCleared_after_write r s v hash hids (List.mem_of_find?_eq_some hfound)
    · intro u2 hu2
      left
      rw [hu] at hu2
      rw [← Option.some.inj hu2]
      exact hnone
    · rw [hu]; rfl

theorem otpCleared_all (bcrypt : Bcrypt) (r : String) (reqs : List (Millis × ResetPassBody)) :
    ∀ s : Store, otpCleared r s → otpCleared r (resetPassAll bcrypt s reqs) := by
  induction reqs with
  | nil => intro s h; exact h
  | cons q rest ih =>
    intro s h
    obtain ⟨now, body⟩ := q
    exact ih _ (otpCleared_step bcrypt now s body r h)

/-- With no OTP stored, a request that does supply an `otp` is turned down. -/
theorem otpCleared_rejects (bcrypt : Bcrypt) (now : Millis) (s : Store) (body : ResetPassBody)
    (h : otpCleared body.recoveryEmail s) (hotp : body.otp ≠ JsVal.undefined) :
    resetPass bcrypt now s body = (Outcome.next ⟨"Invalid or expired OTP.", some 404⟩, s) := by
  obtain ⟨_, u, hu, hnone⟩ := h
  have hne : strictNe none body.otp = true := by
    cases hb : body.otp <;> simp [strictNe]
    exact absurd hb hotp
  simp [resetPass, hu, hnone, hne]

/-- C7. After a `resetPass` that succeeded with a supplied OTP `o`, and after any further
`resetPass` requests (no `forgetPassReq` in between), a `resetPass` for the same recovery
email that supplies `o` again gets the "Invalid or expired OTP." error and the store,
passwords included, is returned as it was. -/
theorem resetPass_otp_single_use (bcrypt : Bcrypt) (s : Store)
    (now1 : Millis) (body1 : ResetPassBody)
    (between : List (Millis × ResetPassBody))
    (now2 : Millis) (body2 : ResetPassBody)
    (hids : idsUnique s.users)
    (hsucc : (resetPass bcrypt now1 s body1).1
      = Outcome.sent 200 (Body.message "Password has been reset successfully"))
    (hsupplied : body1.otp ≠ JsVal.undefined)
    (hsameUser : body2.recoveryEmail = body1.recoveryEmail)
    (hsameOtp : body2.otp = body1.otp) :
    resetPass bcrypt now2 (resetPassAll bcrypt (resetPass bcrypt now1 s body1).2 between) body2
      = (Outcome.next ⟨"Invalid or expired OTP.", some 404⟩,
          resetPassAll bcrypt (resetPass bcrypt now1 s body1).2 between) := by
  have h1 := otpCleared_after_success bcrypt now1 s body1 _ _ hids hsucc
  have h2 := otpCleared_all bcrypt body1.recoveryEmail between _ h1
  rw [← hsameUser] at h2
  apply otpCleared_rejects bcrypt now2 _ body2 h2
  rw [hsameOtp]
  exact hsupplied

/-- Witness of C7 on `otpStore`: the issued OTP is used at time 2000, a request without
OTP follows at 3000, and the issued OTP is supplied again at 4000. -/
theorem resetPass_otp_single_use_witness :
    idsUnique otpStore.users
      ∧ (resetPass toyBcrypt 2000 otpStore resetWithOtp).1
          = Outcome.sent 200 (Body.message "Password has been reset successfully")
      ∧ resetWithOtp.otp ≠ JsVal.undefined
      ∧ resetPass toyBcrypt 4000
            (resetPassAll toyBcrypt (resetPass toyBcrypt 2000 otpStore resetWithOtp).2
              [(3000, resetNoOtp)]) resetWithOtp
          = (Outcome.next ⟨"Invalid or expired OTP.", some 404⟩,
              resetPassAll toyBcrypt (resetPass toyBcrypt 2000 otpStore resetWithOtp).2
                [(3000, resetNoOtp)]) :=
  ⟨by decide, by decide, by decide,
    resetPass_otp_single_use toyBcrypt otpStore 2000 resetWithOtp [(3000, resetNoOtp)] 4000
      resetWithOtp (by decide) (by decide) (by decide) rfl rfl⟩

/-! ## Sign-in -/

/-- The filter `signIn` hands to `User.findOne` tests the email only. -/
theorem signIn_filter (body : SignInBody) (u : User) :
    (logicalOr (UserFilter.email body.email) (UserFilter.recoveryEmail body.recoveryEmail)).test u
      = (u.email == body.email) := by
  rfl

/-- C10. For every store: a `signIn` whose email belongs to a user but whose password
`bcrypt` does not accept for that user, and a `signIn` whose email belongs to no user,
both call `next` with the same error ("Incorrect password or email.", 404); neither
sends a token and both return the store, every user's `status` included, as it was. -/
theorem signIn_same_failure (bcrypt : Bcrypt) (jwt : Jwt) (s : Store)
    (wrongPassword unknownEmail : SignInBody)
    (_hknown : ∃ u ∈ s.users, u.email = wrongPassword.email)
    (hwrong : ∀ u ∈ s.users, u.email = wrongPassword.email →
      bcrypt.compareSync wrongPassword.password u.password = false)
    (hunknown : ∀ u ∈ s.users, u.email ≠ unknownEmail.email) :
    signIn bcrypt jwt s wrongPassword
        = (Outcome.next ⟨"Incorrect password or email.", some 404⟩, s)
      ∧ signIn bcrypt jwt s unknownEmail
        = (Outcome.next ⟨"Incorrect password or email.", some 404⟩, s) := by
  constructor
  · cases hfound : findOne s.users (logicalOr (UserFilter.email wrongPassword.email)
        (UserFilter.recoveryEmail wrongPassword.recoveryEmail)).test with
    | none => simp only [signIn, hfound]
    | some user =>
      have hmem : user ∈ s.users := List.mem_of_find?_eq_some hfound
      have hp := List.find?_some hfound
      rw [signIn_filter] at hp
      have hemail : user.email = wrongPassword.email := by simpa using hp
      have hcmp := hwrong user hmem hemail
      simp only [signIn, hfound, hcmp, Bool.not_false, if_true]
  · have hnone : findOne s.users (logicalOr (UserFilter.email unknownEmail.email)
        (UserFilter.recoveryEmail unknownEmail.recoveryEmail)).test = none := by
      unfold findOne
      rw [List.find?_eq_none]
      intro u hu
      rw [signIn_filter]
      simpa using hunknown u hu
    simp only [signIn, hnone]

/-- Witness of C10 on the sample database: the email of `userU` with a wrong password,
and an email nobody has. -/
theorem signIn_same_failure_witness :
    (∃ u ∈ sampleStore.users, u.email = signInWrongPassword.email)
      ∧ (∀ u ∈ sampleStore.users, u.email = signInWrongPassword.email →
          toyBcrypt.compareSync signInWrongPassword.password u.password = false)
      ∧ (∀ u ∈ sampleStore.users, u.email ≠ signInUnknownEmail.email)
      ∧ (signIn toyBcrypt toyJwt sampleStore signInWrongPassword
            = (Outcome.next ⟨"Incorrect password or email.", some 404⟩, sampleStore)
          ∧ signIn toyBcrypt toyJwt sampleStore signInUnknownEmail
            = (Outcome.next ⟨"Incorrect password or email.", some 404⟩, sampleStore)) :=
  ⟨by decide, by decide, by decide,
    signIn_same_failure toyBcrypt toyJwt sampleStore signInWrongPassword signInUnknownEmail
      (by decide) (by decide) (by decide)⟩

/-! ## Applying to a job -/

theorem includes_User (r : Role) : includes r.toString "User" = decide (r = Role.User) := by
  cases r <;> decide

/-- C11 (counterexample). `userU`, a stored user of role User, applies with `jobId`
"abc". No Job has that id, yet the answer is not the 404 "Job not found" error: the cast
of the id throws. The store is as it was. -/
theorem applyToJob_malformed_jobId :
    findById sampleStore.users tokenU.userId = some userU
      ∧ userU.role = Role.User
      ∧ applyMalformedJob.jobId = IdParam.malformed "abc"
      ∧ (∀ j ∈ sampleStore.jobs, IdParam.valid j._id ≠ applyMalformedJob.jobId)
      ∧ applyToJob 31 50 sampleStore tokenU applyMalformedJob (some resumeFile)
          = (Outcome.threw JsError.castError, sampleStore)
      ∧ (applyToJob 31 50 sampleStore tokenU applyMalformedJob (some resumeFile)).1
          ≠ Outcome.next ⟨"Job not found", some 404⟩ := by
  decide

/-- C11 (amended). A caller who exists with role User and whose `jobId` is missing, or is
a well-formed id that no Job has, gets the 404 "Job not found" error with the store as it
was. For every `jobId` that matches no Job, a malformed one included, the outcome is that
error or a cast error and the store, the Application collection included, is as it
was. -/
theorem applyToJob_missing_job (newId : ObjectId) (now : Millis) (s : Store)
    (user : TokenPayload) (body anyBody : ApplyBody) (file : Option UploadedFile) (u : User)
    (hcaller : findById s.users user.userId = some u)
    (hrole : u.role = Role.User)
    (hjob : body.jobId = IdParam.missing
      ∨ ∃ id, body.jobId = IdParam.valid id ∧ findById s.jobs id = none)
    (hany : ∀ id, anyBody.jobId = IdParam.valid id → findById s.jobs id = none) :
    applyToJob newId now s user body file = (Outcome.next ⟨"Job not found", some 404⟩, s)
      ∧ (applyToJob newId now s user body file).2.applications = s.applications
      ∧ (applyToJob newId now s user anyBody file
            = (Outcome.next ⟨"Job not found", some 404⟩, s)
          ∨ applyToJob newId now s user anyBody file = (Outcome.threw JsError.castError, s))
      ∧ (applyToJob newId now s user anyBody file).2.applications = s.applications := by
  have hrun : applyToJob newId now s user body file
      = (Outcome.next ⟨"Job not found", some 404⟩, s) := by
    rcases hjob with h | ⟨id, h, hnone⟩
    · simp [applyToJob, hcaller, includes_User, hrole, h]
    · simp [applyToJob, hcaller, includes_User, hrole, h, hnone]
  have hrunAny : applyToJob newId now s user anyBody file
        = (Outcome.next ⟨"Job not found", some 404⟩, s)
      ∨ applyToJob newId now s user anyBody file = (Outcome.threw JsError.castError, s) := by
    cases h : anyBody.jobId with
    | missing => left; simp [applyToJob, hcaller, includes_User, hrole, h]
    | valid id =>
      left
      simp [applyToJob, hcaller, includes_User, hrole, h, hany id h]
    | malformed raw => right; simp [applyToJob, hcaller, includes_User, hrole, h]
  refine ⟨hrun, by rw [hrun], hrunAny, ?_⟩
  rcases hrunAny with h | h <;> rw [h]

/-- Witness of C11 (amended) on the sample database: `userU` applies to job 99, and with
the id "abc". -/
theorem applyToJob_missing_job_witness :
    findById sampleStore.users tokenU.userId = some userU
      ∧ userU.role = Role.User
      ∧ (applyMissingJob.jobId = IdParam.missing
          ∨ ∃ id, applyMissingJob.jobId = IdParam.valid id
              ∧ findById sampleStore.jobs id = none)
      ∧ (∀ id, applyMalformedJob.jobId = IdParam.valid id → findById sampleStore.jobs id = none)
      ∧ (applyToJob 31 50 sampleStore tokenU applyMissingJob (some resumeFile)
            = (Outcome.next ⟨"Job not found", some 404⟩, sampleStore)
          ∧ (applyToJob 31 50 sampleStore tokenU applyMissingJob (some resumeFile)).2.applications
            = sampleStore.applications
          ∧ (applyToJob 31 50 sampleStore tokenU applyMalformedJob (some resumeFile)
                = (Outcome.next ⟨"Job not found", some 404⟩, sampleStore)
              ∨ applyToJob 31 50 sampleStore tokenU applyMalformedJob (some resumeFile)
                = (Outcome.threw JsError.castError, sampleStore))
          ∧ (applyToJob 31 50 sampleStore tokenU applyMalformedJob
                (some resumeFile)).2.applications
            = sampleStore.applications) :=
  ⟨by decide, by decide, Or.inr ⟨99, rfl, by decide⟩,
    fun id h => by simp [applyMalformedJob] at h,
    applyToJob_missing_job 31 50 sampleStore tokenU applyMissingJob applyMalformedJob
      (some resumeFile) userU (by decide) (by decide) (Or.inr ⟨99, rfl, by decide⟩)
      (fun id h => by simp [applyMalformedJob] at h)⟩

/-- C12 (counterexample). `userU`, a stored user of role User, applies to the existing
`jobJ2` with a request that carries no file: the handler throws at `req.file.filename`
and no Application is created. -/
theorem applyToJob_without_file :
    findById sampleStore.users tokenU.userId = some userU
      ∧ userU.role = Role.User
      ∧ applyJ2.jobId = IdParam.valid 21
      ∧ findById sampleStore.jobs 21 = some jobJ2
      ∧ applyToJob 31 50 sampleStore tokenU applyJ2 none
          = (Outcome.threw JsError.typeError, sampleStore)
      ∧ (applyToJob 31 50 sampleStore tokenU applyJ2 none).2.applications
          = sampleStore.applications := by
  decide

/-- C12 (amended). `applyToJob` answers 404 "User not found." to a caller without a User
record and 403 "Access denied" to a caller whose stored role is not User, both with the
store as it was; for a caller with role User, an existing Job and an uploaded file it
answers 201 and the Application collection grows by exactly the one new document,
nothing else changes. -/
theorem applyToJob_guards (newId : ObjectId) (now : Millis) (s : Store)
    (user : TokenPayload) (body : ApplyBody) (file : Option UploadedFile) :
    (findById s.users user.userId = none →
        applyToJob newId now s user body file
          = (Outcome.next ⟨"User not found.", some 404⟩, s))
      ∧ (∀ u : User, findById s.users user.userId = some u → u.role ≠ Role.User →
        applyToJob newId now s user body file
          = (Outcome.next ⟨"Access denied", some 403⟩, s))
      ∧ (∀ (u : User) (jobId : ObjectId) (job : Job) (f : UploadedFile),
        findById s.users user.userId = some u → u.role = Role.User →
        body.jobId = IdParam.valid jobId → findById s.jobs jobId = some job →
        file = some f →
          applyToJob newId now s user body file
              = (Outcome.sent 201 (Body.applications "success"
                  [{ _id := newId, jobId := jobId, userId := user.userId,
                     userTechSkills := body.userTechSkills,
                     userSoftSkills := body.userSoftSkills,
                     userResume := f.filename, createdAt := now }]),
                { s with applications := s.applications ++
                  [{ _id := newId, jobId := jobId, userId := user.userId,
                     userTechSkills := body.userTechSkills,
                     userSoftSkills := body.userSoftSkills,
                     userResume := f.filename, createdAt := now }] })
            ∧ (applyToJob newId now s user body file).2.applications.length
              = s.applications.length + 1) := by
  refine ⟨?_, ?_, ?_⟩
  · intro hghost
    simp [applyToJob, hghost]
  · intro u hu hrole
    simp [applyToJob, hu, includes_User, hrole]
  · intro u jobId job f hu hrole hjobId hjob hfile
    constructor
    · simp [applyToJob, hu, includes_User, hrole, hjobId, hjob, hfile]
    · simp [applyToJob, hu, includes_User, hrole, hjobId, hjob, hfile]

/-- Witness of C12 (amended) on the sample database: a token without record, `hrH`, and
`userU` applying to `jobJ2` with `resumeFile`. -/
theorem applyToJob_guards_witness :
    findById sampleStore.users tokenNobody.userId = none
      ∧ findById sampleStore.users tokenH.userId = some hrH
      ∧ hrH.role ≠ Role.User
      ∧ findById sampleStore.users tokenU.userId = some userU
      ∧ userU.role = Role.User
      ∧ applyJ2.jobId = IdParam.valid 21
      ∧ findById sampleStore.jobs 21 = some jobJ2
      ∧ applyToJob 31 50 sampleStore tokenNobody applyJ2 (some resumeFile)
          = (Outcome.next ⟨"User not found.", some 404⟩, sampleStore)
      ∧ applyToJob 31 50 sampleStore tokenH applyJ2 (some resumeFile)
          = (Outcome.next ⟨"Access denied", some 403⟩, sampleStore)
      ∧ (applyToJob 31 50 sampleStore tokenU applyJ2 (some resumeFile)
            = (Outcome.sent 201 (Body.applications "success"
                [{ _id := 31, jobId := 21, userId := tokenU.userId,
                   userTechSkills := applyJ2.userTechSkills,
                   userSoftSkills := applyJ2.userSoftSkills,
                   userResume := resumeFile.filename, createdAt := 50 }]),
              { sampleStore with applications := sampleStore.applications ++
                [{ _id := 31, jobId := 21, userId := tokenU.userId,
                   userTechSkills := applyJ2.userTechSkills,
                   userSoftSkills := applyJ2.userSoftSkills,
                   userResume := resumeFile.filename, createdAt := 50 }] })
          ∧ (applyToJob 31 50 sampleStore tokenU applyJ2 (some resumeFile)).2.applications.length
            = sampleStore.applications.length + 1) :=
  ⟨by decide, by decide, by decide, by decide, by decide, by decide, by decide,
    (applyToJob_guards 31 50 sampleStore tokenNobody applyJ2 (some resumeFile)).1 (by decide),
    (applyToJob_guards 31 50 sampleStore tokenH applyJ2 (some resumeFile)).2.1 hrH
      (by decide) (by decide),
    (applyToJob_guards 31 50 sampleStore tokenU applyJ2 (some resumeFile)).2.2 userU 21 jobJ2
      resumeFile (by decide) (by decide) (by decide) (by decide) rfl⟩

theorem filename_ne_empty (f : UploadedFile) : f.filename ≠ "" := by
  intro h
  have hlen := congrArg String.length h
  simp only [UploadedFile.filename, String.length_append] at hlen
  have hspace : " ".length = 1 := rfl
  have hzero : "".length = 0 := rfl
  omega

/-- C19. For a caller with role User, an existing Job and the uploaded file `f`, the
Application document `applyToJob` adds to the store has `userId` of the caller, `jobId`
of the request and `userResume` equal to the generated filename `uuid originalname`,
without URL. The `init` hook run on load turns a non-empty stored `userResume` into
`http://localhost:3000/uploads/` followed by the stored value, so for the new document
into that address followed by the filename, and returns a document with an empty
`userResume` as it is. -/
theorem applyToJob_stores_filename (newId : ObjectId) (now : Millis) (s : Store)
    (user : TokenPayload) (body : ApplyBody) (f : UploadedFile) (u : User)
    (jobId : ObjectId) (job : Job)
    (stored blank : Application)
    (hcaller : findById s.users user.userId = some u)
    (hrole : u.role = Role.User)
    (hjobId : body.jobId = IdParam.valid jobId)
    (hjob : findById s.jobs jobId = some job)
    (hstored : stored.userResume ≠ "")
    (hblank : blank.userResume = "") :
    (∃ created : Application,
        (applyToJob newId now s user body (some f)).2.applications
            = s.applications ++ [created]
          ∧ created.userId = user.userId
          ∧ IdParam.valid created.jobId = body.jobId
          ∧ created.userResume = f.uuid ++ " " ++ f.originalname
          ∧ (postInit created).userResume
              = "http://localhost:3000/uploads/" ++ (f.uuid ++ " " ++ f.originalname))
      ∧ postInit stored
          = { stored with userResume := "http://localhost:3000/uploads/" ++ stored.userResume }
      ∧ postInit blank = blank := by
  refine ⟨?_, ?_, ?_⟩
  · refine ⟨(⟨newId, jobId, user.userId, body.userTechSkills, body.userSoftSkills,
        f.filename, now⟩ : Application), ?_, rfl, hjobId.symm, rfl, ?_⟩
    · simp [applyToJob, hcaller, includes_User, hrole, hjobId, hjob]
    · have hne := filename_ne_empty f
      simp only [postInit, bne_iff_ne, ne_eq, hne, not_false_eq_true, if_true]
      rfl
  · simp [postInit, hstored]
  · simp [postInit, hblank]

/-- Witness of C19 on the sample database: `userU` applies to `jobJ2` with `resumeFile`;
`appA1` has a stored filename and `appNoResume` has none. -/
theorem applyToJob_stores_filename_witness :
    findById sampleStore.users tokenU.userId = some userU
      ∧ userU.role = Role.User
      ∧ applyJ2.jobId = IdParam.valid 21
      ∧ findById sampleStore.jobs 21 = some jobJ2
      ∧ appA1.userResume ≠ ""
      ∧ appNoResume.userResume = ""
      ∧ ((∃ created : Application,
            (applyToJob 31 50 sampleStore tokenU applyJ2 (some resumeFile)).2.applications
                = sampleStore.applications ++ [created]
              ∧ created.userId = tokenU.userId
              ∧ IdParam.valid created.jobId = applyJ2.jobId
              ∧ created.userResume = resumeFile.uuid ++ " " ++ resumeFile.originalname
              ∧ (postInit created).userResume
                  = "http://localhost:3000/uploads/"
                      ++ (resumeFile.uuid ++ " " ++ resumeFile.originalname))
          ∧ postInit appA1
              = { appA1 with userResume := "http://localhost:3000/uploads/" ++ appA1.userResume }
          ∧ postInit appNoResume = appNoResume) :=
  ⟨by decide, by decide, by decide, by decide, by decide, by decide,
    applyToJob_stores_filename 31 50 sampleStore tokenU applyJ2 resumeFile userU 21 jobJ2
      appA1 appNoResume (by decide) (by decide) (by decide) (by decide) (by decide)
      (by decide)⟩

/-! ## Export of the applications of a day -/

/-- On a host at a fixed offset from UTC the start of a local day is a whole number of
days after local midnight of the epoch, so `setHours(23, 59, 59, 999)` on it adds
86399999 ms. -/
theorem setHours_endOfDay (tzOffset date : Int) :
    setHours tzOffset (setHours tzOffset date 0 0 0 0) 23 59 59 999
      = setHours tzOffset date 0 0 0 0 + 86399999 := by
  simp only [setHours]
  push_cast
  omega

/-- C13 (counterexample). `hrH` owns `acme`. Asked for a `date` that is no date, the
export throws a cast error although no Application matches; asked for the company id
"abc", which no Company has, it throws a cast error too. Neither answer is a 404
error. -/
theorem export_throws_on_unchecked_query :
    exportGarbageDate.companyId = IdParam.valid 10
      ∧ findById sampleStore.companies 10 = some acme
      ∧ tokenH.userId = acme.companyHR
      ∧ exportGarbageDate.date = some "garbage"
      ∧ utcServer.parse "garbage" = none
      ∧ getApplicationsByCompanyAndDate utcServer sampleStore tokenH exportGarbageDate
          = (Outcome.threw JsError.castError, sampleStore)
      ∧ exportMalformed.companyId = IdParam.malformed "abc"
      ∧ (∀ c ∈ sampleStore.companies, IdParam.valid c._id ≠ exportMalformed.companyId)
      ∧ getApplicationsByCompanyAndDate utcServer sampleStore tokenH exportMalformed
          = (Outcome.threw JsError.castError, sampleStore) := by
  decide

/-- C13 (amended). `getApplicationsByCompanyAndDate` answers 404 "Company not found" when
`companyId` is missing or is a well-formed id that no Company has, 403 "Access denied"
when the caller is not the `companyHR` of the company found, and, for the owner and a
`date` that parses, 404 "No applications found for the specified criteria" when no
Application on a Job of that HR was created in the window the handler computes with
`setHours` of the host, whatever its time zone rules. In these cases, and also when
`companyId` is malformed or the `date` of the owner is missing or does not parse, where
the handler throws a cast error, the outcome is no download and the store is as it
was. -/
theorem export_failures (env : DateEnv) (s : Store) (user : TokenPayload)
    (query : ExportQuery) :
    ((query.companyId = IdParam.missing
          ∨ ∃ id, query.companyId = IdParam.valid id ∧ findById s.companies id = none) →
        getApplicationsByCompanyAndDate env s user query
          = (Outcome.next ⟨"Company not found", some 404⟩, s))
      ∧ (∀ (id : ObjectId) (c : Company), query.companyId = IdParam.valid id →
        findById s.companies id = some c → user.userId ≠ c.companyHR →
          getApplicationsByCompanyAndDate env s user query
            = (Outcome.next ⟨"Access denied", some 403⟩, s))
      ∧ (∀ (id : ObjectId) (c : Company) (d : String) (parsed : Int),
        query.companyId = IdParam.valid id → findById s.companies id = some c →
        user.userId = c.companyHR → query.date = some d → env.parse d = some parsed →
        (∀ a ∈ s.applications, ∀ j ∈ s.jobs, j.addedBy = c.companyHR → a.jobId = j._id →
          ¬ (env.setHours parsed 0 0 0 0 ≤ (a.createdAt : Int)
              ∧ (a.createdAt : Int)
                < env.setHours (env.setHours parsed 0 0 0 0) 23 59 59 999)) →
          getApplicationsByCompanyAndDate env s user query
            = (Outcome.next ⟨"No applications found for the specified criteria", some 404⟩, s))
      ∧ (∀ raw : String, query.companyId = IdParam.malformed raw →
          getApplicationsByCompanyAndDate env s user query
            = (Outcome.threw JsError.castError, s))
      ∧ (∀ (id : ObjectId) (c : Company), query.companyId = IdParam.valid id →
        findById s.companies id = some c → user.userId = c.companyHR →
        (query.date = none ∨ ∃ d, query.date = some d ∧ env.parse d = none) →
          getApplicationsByCompanyAndDate env s user query
            = (Outcome.threw JsError.castError, s)) := by
  refine ⟨?_, ?_, ?_, ?_, ?_⟩
  · intro hmissing
    rcases hmissing with h | ⟨id, h, hnone1⟩
    · simp only [getApplicationsByCompanyAndDate, h]
    · simp only [getApplicationsByCompanyAndDate, h, hnone1]
  · intro id c hid hfound hother
    have hne : (c.companyHR != user.userId) = true := by
      simpa [bne_iff_ne] using (Ne.symm hother)
    simp only [getApplicationsByCompanyAndDate, hid, hfound, hne, if_true]
  · intro id c d parsed hid hfound howner hdate hparse hnone
    have hempty : findApplications s.applications
        (exportFilter ((find s.jobs (fun j => j.addedBy == c.companyHR)).map (fun job => job._id))
          (env.setHours parsed 0 0 0 0)
          (env.setHours (env.setHours parsed 0 0 0 0) 23 59 59 999)) = [] := by
      unfold findApplications find
      rw [List.map_eq_nil_iff, List.filter_eq_nil_iff]
      intro a ha hf
      simp only [exportFilter, Bool.and_eq_true, decide_eq_true_eq, List.contains_iff_exists_mem_beq,
        List.mem_map, List.mem_filter, beq_iff_eq] at hf
      obtain ⟨⟨⟨jid, ⟨j, ⟨hj, hjo⟩, hjid⟩, hajid⟩, hge⟩, hlt⟩ := hf
      exact hnone a ha j hj hjo (by rw [hajid, hjid]) ⟨hge, hlt⟩
    simp only [getApplicationsByCompanyAndDate, hid, hfound, howner, bne_self_eq_false,
      Bool.false_eq_true, if_false, hdate, hparse, hempty, List.length_nil, beq_self_eq_true,
      if_true]
  · intro raw hmalformed
    simp only [getApplicationsByCompanyAndDate, hmalformed]
  · intro id c hid hfound howner hnodate
    rcases hnodate with h | ⟨d, h, hd⟩
    · simp only [getApplicationsByCompanyAndDate, hid, hfound, howner, bne_self_eq_false,
        Bool.false_eq_true, if_false, h]
    · simp only [getApplicationsByCompanyAndDate, hid, hfound, howner, bne_self_eq_false,
        Bool.false_eq_true, if_false, h, hd]

/-- Witness of C13 (amended): a company id that no Company has, `hrG` asking for `acme`,
`hrH` asking for `acme` on a day on which the only application (`appA1`, created at
instant 5) does not fall, the company id "abc", and `hrH` asking for `acme` on a `date`
that is no date. -/
theorem export_failures_witness :
    (exportMissing.companyId = IdParam.missing
        ∨ ∃ id, exportMissing.companyId = IdParam.valid id
            ∧ findById sampleStore.companies id = none)
      ∧ exportAcme.companyId = IdParam.valid 10
      ∧ findById sampleStore.companies 10 = some acme
      ∧ tokenG.userId ≠ acme.companyHR
      ∧ tokenH.userId = acme.companyHR
      ∧ exportAcme.date = some "1970-01-02"
      ∧ utcServer.parse "1970-01-02" = some 86400000
      ∧ (∀ a ∈ sampleStore.applications, ∀ j ∈ sampleStore.jobs, j.addedBy = acme.companyHR →
          a.jobId = j._id →
            ¬ (utcServer.setHours 86400000 0 0 0 0 ≤ (a.createdAt : Int)
                ∧ (a.createdAt : Int)
                  < utcServer.setHours (utcServer.setHours 86400000 0 0 0 0) 23 59 59 999))
      ∧ exportMalformed.companyId = IdParam.malformed "abc"
      ∧ exportGarbageDate.companyId = IdParam.valid 10
      ∧ (exportGarbageDate.date = none
          ∨ ∃ d, exportGarbageDate.date = some d ∧ utcServer.parse d = none)
      ∧ getApplicationsByCompanyAndDate utcServer sampleStore tokenH exportMissing
          = (Outcome.next ⟨"Company not found", some 404⟩, sampleStore)
      ∧ getApplicationsByCompanyAndDate utcServer sampleStore tokenG exportAcme
          = (Outcome.next ⟨"Access denied", some 403⟩, sampleStore)
      ∧ getApplicationsByCompanyAndDate utcServer sampleStore tokenH exportAcme
          = (Outcome.next ⟨"No applications found for the specified criteria", some 404⟩,
              sampleStore)
      ∧ getApplicationsByCompanyAndDate utcServer sampleStore tokenU exportMalformed
          = (Outcome.threw JsError.castError, sampleStore)
      ∧ getApplicationsByCompanyAndDate utcServer sampleStore tokenH exportGarbageDate
          = (Outcome.threw JsError.castError, sampleStore) :=
  ⟨Or.inr ⟨11, rfl, by decide⟩, by decide, by decide, by decide, by decide, by decide,
    by decide, by decide, by decide, by decide, Or.inr ⟨"garbage", rfl, by decide⟩,
    (export_failures utcServer sampleStore tokenH exportMissing).1
      (Or.inr ⟨11, rfl, by decide⟩),
    (export_failures utcServer sampleStore tokenG exportAcme).2.1 10 acme (by decide)
      (by decide) (by decide),
    (export_failures utcServer sampleStore tokenH exportAcme).2.2.1 10 acme "1970-01-02"
      86400000 (by decide) (by decide) (by decide) (by decide) (by decide) (by decide),
    (export_failures utcServer sampleStore tokenU exportMalformed).2.2.2.1 "abc" (by decide),
    (export_failures utcServer sampleStore tokenH exportGarbageDate).2.2.2.2 10 acme
      (by decide) (by decide) (by decide) (Or.inr ⟨"garbage", rfl, by decide⟩)⟩

/-- For the owner and a date that parses, on a host at a fixed offset from UTC, the
applications looked up are those on a Job of the HR created at `t` with
`startOfDay ≤ t < startOfDay + 86399999`: the window ends at 23:59:59.999 and that
instant is outside. -/
theorem export_window (tzOffset : Int) (s : Store) (company : Company) (parsed : Int) :
    findApplications s.applications
        (exportFilter ((find s.jobs (fun j => j.addedBy == company.companyHR)).map
            (fun job => job._id))
          (setHours tzOffset parsed 0 0 0 0)
          (setHours tzOffset (setHours tzOffset parsed 0 0 0 0) 23 59 59 999))
      = (s.applications.filter (fun a =>
          ((s.jobs.filter (fun j => j.addedBy == company.companyHR)).map
              (fun job => job._id)).contains a.jobId
            && decide (setHours tzOffset parsed 0 0 0 0 ≤ (a.createdAt : Int))
            && decide ((a.createdAt : Int)
                < setHours tzOffset parsed 0 0 0 0 + 86399999))).map postInit := by
  rw [setHours_endOfDay]
  rfl

/-- C14 (code at the failing input). The server runs in UTC and `hrH` exports `acme` for
2 January 1970, whose start of day is 86400000. `appLastMs`, an application to a Job of
`hrH` created at 23:59:59.999 of that day (inside start ≤ t < start + 24 h), is not
exported: with `appNoon` in the store the worksheet has the row of `appNoon` only, and
alone in the store it gives the 404 "No applications found" error. -/
theorem export_misses_last_millisecond :
    exportAcme.date = some "1970-01-02"
      ∧ utcServer.parse "1970-01-02" = some 86400000
      ∧ utcServer.setHours 86400000 0 0 0 0 = 86400000
      ∧ utcServer.setHours 86400000 23 59 59 999 = 172799999
      ∧ (86400000 ≤ (appLastMs.createdAt : Int)
          ∧ (appLastMs.createdAt : Int) < 86400000 + 24 * 3600000)
      ∧ appLastMs.jobId = jobJ1._id
      ∧ jobJ1.addedBy = acme.companyHR
      ∧ tokenH.userId = acme.companyHR
      ∧ getApplicationsByCompanyAndDate utcServer exportStore tokenH exportAcme
          = (Outcome.sent 200 (Body.download "Applications_10_1970-01-02.xlsx"
              [{ UserID := 2, JobID := 20, UserTechSkills := "js", UserSoftSkills := "",
                 ResumeURL := "http://localhost:3000/uploads/f3 cv.pdf",
                 ApplicationDate := 129600000 }]), exportStore)
      ∧ getApplicationsByCompanyAndDate utcServer lastMsStore tokenH exportAcme
          = (Outcome.next ⟨"No applications found for the specified criteria", some 404⟩,
              lastMsStore) := by
  decide

/-! ## Order of the writes in the cascades -/

/-- The last write of each trace is the store the handler returns. -/
theorem writes_end_in_result (s : Store) (user : TokenPayload) (id : ObjectId) :
    (deleteJobWrites s user id).getLastD s = (deleteJob s user id).2
      ∧ (deleteCompanyWrites s user id).getLastD s = (deleteCompany s user id).2
      ∧ (deleteAccWrites s user).getLastD s = (deleteAcc s user).2 := by
  refine ⟨?_, ?_, ?_⟩
  · unfold deleteJobWrites deleteJob
    cases findById s.jobs id with
    | none => rfl
    | some job =>
      by_cases h : (job.addedBy != user.userId) = true
      · simp [h]
      · simp [h]
  · unfold deleteCompanyWrites deleteCompany
    cases findById s.companies id with
    | none => rfl
    | some company =>
      by_cases h : (company.companyHR != user.userId) = true
      · simp [h]
      · simp [h]
  · have hres : resolveIdentifier "Token" = Except.error (JsError.referenceError "Token") := by
      rfl
    unfold deleteAccWrites deleteAcc
    simp only [hres]
    cases findOne s.companies (fun c => c.companyHR == user.userId) <;> rfl

/-- In `deleteCompany` the applications go first: in every intermediate store, an
Application that references a Job of the initial store still finds that Job. -/
theorem deleteCompany_leaves_first (s : Store) (user : TokenPayload) (companyId : ObjectId) :
    ∀ t ∈ deleteCompanyWrites s user companyId, ∀ a ∈ t.applications, ∀ j ∈ s.jobs,
      a.jobId = j._id → j ∈ t.jobs := by
  intro t ht a ha j hj hid
  unfold deleteCompanyWrites at ht
  cases hc : findById s.companies companyId with
  | none => simp [hc] at ht
  | some company =>
    by_cases h : (company.companyHR != user.userId) = true
    · simp [hc, h] at ht
    · simp only [hc] at ht
      rw [if_neg h] at ht
      have hkeep : a ∈ deleteMany s.applications (fun a =>
          ((find s.jobs (fun j => j.addedBy == company.companyHR)).map
            (fun job => job._id)).contains a.jobId) →
          j ∈ deleteMany s.jobs (fun j => j.addedBy == company.companyHR) := by
        intro ha2
        unfold deleteMany find at *
        have hnot := (List.mem_filter.mp ha2).2
        apply List.mem_filter.mpr
        refine ⟨hj, ?_⟩
        by_cases hjo : j.addedBy = company.companyHR
        · exfalso
          have hin : a.jobId ∈ (s.jobs.filter (fun j => j.addedBy == company.companyHR)).map
              (fun job => job._id) := by
            rw [hid]
            exact List.mem_map_of_mem _ (List.mem_filter.mpr ⟨hj, by simp [hjo]⟩)
          simp only [Bool.not_eq_true', List.contains_eq_any_beq, List.any_eq_false,
            beq_iff_eq] at hnot
          exact hnot a.jobId hin rfl
        · simp [hjo]
      rcases List.mem_cons.mp ht with h1 | ht2
      · rw [h1]; exact hj
      · rcases List.mem_cons.mp ht2 with h2 | ht3
        · rw [h2] at ha ⊢; exact hkeep ha
        · have h3 := List.mem_singleton.mp ht3
          rw [h3] at ha ⊢; exact hkeep ha

/-- In `deleteAcc` the applications go first as well. -/
theorem deleteAcc_leaves_first (s : Store) (user : TokenPayload) :
    ∀ t ∈ deleteAccWrites s user, ∀ a ∈ t.applications, ∀ j ∈ s.jobs,
      a.jobId = j._id → j ∈ t.jobs := by
  intro t ht a ha j hj hid
  unfold deleteAccWrites at ht
  cases hc : findOne s.companies (fun c => c.companyHR == user.userId) with
  | none => simp [hc] at ht
  | some company =>
    simp only [hc] at ht
    have hkeep : a ∈ deleteMany s.applications (fun a =>
        ((find s.jobs (fun j => j.addedBy == company.companyHR)).map
          (fun job => job._id)).contains a.jobId) →
        j ∈ deleteMany s.jobs (fun j => j.addedBy == company.companyHR) := by
      intro ha2
      unfold deleteMany find at *
      have hnot := (List.mem_filter.mp ha2).2
      apply List.mem_filter.mpr
      refine ⟨hj, ?_⟩
      by_cases hjo : j.addedBy = company.companyHR
      · exfalso
        have hin : a.jobId ∈ (s.jobs.filter (fun j => j.addedBy == company.companyHR)).map
            (fun job => job._id) := by
          rw [hid]
          exact List.mem_map_of_mem _ (List.mem_filter.mpr ⟨hj, by simp [hjo]⟩)
        simp only [Bool.not_eq_true', List.contains_eq_any_beq, List.any_eq_false,
          beq_iff_eq] at hnot
        exact hnot a.jobId hin rfl
      · simp [hjo]
    rcases List.mem_cons.mp ht with h1 | ht2
    · rw [h1]; exact hj
    · rcases List.mem_cons.mp ht2 with h2 | ht3
      · rw [h2] at ha ⊢; exact hkeep ha
      · have h3 := List.mem_singleton.mp ht3
        rw [h3] at ha ⊢; exact hkeep ha

/-- C15 (code at the failing input). On the sample database `hrH` deletes `jobJ1`, to
which `appA1` refers. The first write of `deleteJob` removes the Job; in the store after
it `appA1` is still present with `jobId` 20 while no Job has `_id` 20. The applications
are removed by the second write only. -/
theorem deleteJob_removes_job_first :
    findById sampleStore.jobs 20 = some jobJ1
      ∧ jobJ1.addedBy = tokenH.userId
      ∧ appA1 ∈ sampleStore.applications
      ∧ appA1.jobId = jobJ1._id
      ∧ deleteJobWrites sampleStore tokenH 20
          = [{ sampleStore with jobs := [jobJ2] },
             { sampleStore with jobs := [jobJ2], applications := [] }]
      ∧ appA1 ∈ ({ sampleStore with jobs := [jobJ2] } : Store).applications
      ∧ findById ({ sampleStore with jobs := [jobJ2] } : Store).jobs appA1.jobId = none
      ∧ (deleteJob sampleStore tokenH 20).2
          = { sampleStore with jobs := [jobJ2], applications := [] } := by
  decide

/-! ## Authentication and role gate -/

/-- C16. When `jwt.verify` accepts the `token` header with payload `d`, `verifyToken`
calls `next()` with `req.user` set to `d`, and the chain goes on with the following
stages on that request. When `jwt.verify` reports an error, `verifyToken` calls
`next(err)` with the "Invalid Token" error and the request, `req.user` included, as it
was; whatever stages follow, none of them runs and the store is as it was. -/
theorem verifyToken_contract (env : RouteEnv) (okReq badReq : Request) (d : TokenPayload)
    (rest : List Stage) (s : Store)
    (hok : env.verify okReq.token = some d)
    (hbad : env.verify badReq.token = none) :
    verifyToken env.verify okReq = Step.next { okReq with user := some d }
      ∧ runStages env (Stage.verifyToken :: rest) okReq s
          = runStages env rest { okReq with user := some d } s
      ∧ verifyToken env.verify badReq = Step.nextError ⟨"Invalid Token", none⟩ badReq
      ∧ runStages env (Stage.verifyToken :: rest) badReq s
          = (Outcome.next ⟨"Invalid Token", none⟩, s) := by
  refine ⟨?_, ?_, ?_, ?_⟩
  · simp only [verifyToken, hok]
  · simp only [runStages, Stage.step, verifyToken, hok]
  · simp only [verifyToken, hbad]
  · simp only [runStages, Stage.step, verifyToken, hbad]

/-- Witness of C16 on `DELETE /companies/10`: the token of `hrH` and a forged one. -/
theorem verifyToken_contract_witness :
    deleteAcmeEnv.verify reqH.token = some tokenH
      ∧ deleteAcmeEnv.verify reqForged.token = none
      ∧ (verifyToken deleteAcmeEnv.verify reqH = Step.next { reqH with user := some tokenH }
          ∧ runStages deleteAcmeEnv
                (Stage.verifyToken :: [Stage.roleVal, Stage.handler "deleteCompany"]) reqH
                sampleStore
              = runStages deleteAcmeEnv [Stage.roleVal, Stage.handler "deleteCompany"]
                  { reqH with user := some tokenH } sampleStore
          ∧ verifyToken deleteAcmeEnv.verify reqForged
              = Step.nextError ⟨"Invalid Token", none⟩ reqForged
          ∧ runStages deleteAcmeEnv
                (Stage.verifyToken :: [Stage.roleVal, Stage.handler "deleteCompany"]) reqForged
                sampleStore
              = (Outcome.next ⟨"Invalid Token", none⟩, sampleStore)) :=
  ⟨by decide, by decide,
    verifyToken_contract deleteAcmeEnv reqH reqForged tokenH
      [Stage.roleVal, Stage.handler "deleteCompany"] sampleStore (by decide) (by decide)⟩

/-- A `validate(..)` stage at the head of a chain moves on when the body passes and ends
the chain with the 404 error of validate.js 12 when it does not. -/
theorem runStages_validate (env : RouteEnv) (schema : String) (rest : List Stage)
    (req : Request) (s : Store) :
    runStages env (Stage.validate schema :: rest) req s
      = match env.joiError schema with
        | none => runStages env rest req s
        | some errMsgs => (Outcome.next ⟨String.intercalate "," errMsgs, some 404⟩, s) := by
  simp only [runStages, Stage.step, validate]
  cases env.joiError schema <;> rfl

/-- Every route of the three routers that ends in one of the named handlers is
`verifyToken`, `roleVal` and the handler, with or without one stage ahead of them, which
is then a `validate(..)`; each named handler has a route. -/
theorem gated_routes_shape :
    (∀ r ∈ companyRouter ++ jobRouter ++ applicationRouter, ∀ name ∈ hrGatedHandlers,
        Stage.handler name ∈ r.stages →
          r.stages = [Stage.verifyToken, Stage.roleVal, Stage.handler name]
            ∨ (r.stages
                  = r.stages.take 1 ++ [Stage.verifyToken, Stage.roleVal, Stage.handler name]
                ∧ (r.stages.take 1).length = 1
                ∧ (r.stages.take 1).all Stage.isValidate = true))
      ∧ (∀ name ∈ hrGatedHandlers, ∃ r ∈ companyRouter ++ jobRouter ++ applicationRouter,
          Stage.handler name ∈ r.stages) := by
  decide

/-- The gated routes that start with a `validate(..)` stage are those of `addCompany`,
`updateComData`, `addJob` and `updateJob`. -/
theorem validated_routes :
    ∀ r ∈ companyRouter ++ jobRouter ++ applicationRouter, ∀ name ∈ hrGatedHandlers,
      Stage.handler name ∈ r.stages →
        (r.stages.any Stage.isValidate = true
          ↔ name ∈ ["addCompany", "updateComData", "addJob", "updateJob"]) := by
  decide

/-- The two shapes of a gated route. -/
theorem gated_route_cases (r : Route) (name : String)
    (hroute : r ∈ companyRouter ++ jobRouter ++ applicationRouter)
    (hname : name ∈ hrGatedHandlers)
    (hhandler : Stage.handler name ∈ r.stages) :
    r.stages = [Stage.verifyToken, Stage.roleVal, Stage.handler name]
      ∨ ∃ schema, r.stages
          = [Stage.validate schema, Stage.verifyToken, Stage.roleVal, Stage.handler name] := by
  rcases gated_routes_shape.1 r hroute name hname hhandler with h | ⟨h, hlen, hall⟩
  · exact Or.inl h
  · right
    obtain ⟨st, hst⟩ := List.length_eq_one.mp hlen
    rw [hst] at h hall
    cases st with
    | validate schema => exact ⟨schema, h⟩
    | verifyToken => simp [Stage.isValidate] at hall
    | roleVal => simp [Stage.isValidate] at hall
    | uploadSingleFile f => simp [Stage.isValidate] at hall
    | handler n => simp [Stage.isValidate] at hall

/-- The chain `verifyToken, roleVal, handler` on a token with role User and on one with
role Company_HR. -/
theorem gate_chain (env : RouteEnv) (name : String) (req : Request) (s : Store)
    (userId : ObjectId) :
    (env.verify req.token = some ⟨userId, Role.User⟩ →
        runStages env [Stage.verifyToken, Stage.roleVal, Stage.handler name] req s
          = (Outcome.next ⟨"Access denied", some 403⟩, s))
      ∧ (env.verify req.token = some ⟨userId, Role.Company_HR⟩ →
        runStages env [Stage.verifyToken, Stage.roleVal, Stage.handler name] req s
          = env.handle name (some ⟨userId, Role.Company_HR⟩) s) := by
  have hU : includes (Role.toString Role.User) "Company_HR" = false := by decide
  have hH : includes (Role.toString Role.Company_HR) "Company_HR" = true := by decide
  constructor
  · intro h
    simp [runStages, Stage.step, verifyToken, roleVal, h, hU]
  · intro h
    simp [runStages, Stage.step, verifyToken, roleVal, h, hH]

/-- C17 (counterexample). `POST /companies/addCompany` is a Company_HR-gated route whose
first stage is `validate(addCompanyVal)`, ahead of `verifyToken`. A request with the
token of `userU`, whose role is User, and a body that fails the schema is answered by
`validate` with its 404 error, not by `roleVal` with 403; on the same route and with the
same token a body that passes is answered by `roleVal`. -/
theorem validate_answers_before_roleVal :
    addCompanyRoute ∈ companyRouter ++ jobRouter ++ applicationRouter
      ∧ "addCompany" ∈ hrGatedHandlers
      ∧ addCompanyRoute.stages
          = [Stage.validate "addCompanyVal", Stage.verifyToken, Stage.roleVal,
              Stage.handler "addCompany"]
      ∧ addShortNameEnv.verify reqU.token = some ⟨2, Role.User⟩
      ∧ addShortNameEnv.joiError "addCompanyVal"
          = some ["companyName length must be at least 2 characters long"]
      ∧ runStages addShortNameEnv addCompanyRoute.stages reqU sampleStore
          = (Outcome.next ⟨"companyName length must be at least 2 characters long", some 404⟩,
              sampleStore)
      ∧ runStages addShortNameEnv addCompanyRoute.stages reqU sampleStore
          ≠ (Outcome.next ⟨"Access denied", some 403⟩, sampleStore)
      ∧ runStages addBetaEnv addCompanyRoute.stages reqU sampleStore
          = (Outcome.next ⟨"Access denied", some 403⟩, sampleStore) := by
  decide

/-- C17 (amended). Take any route of the company, job and application routers that ends
in one of the nine Company_HR handlers. The route is `verifyToken`, then `roleVal`, then
the handler, with one `validate(..)` stage ahead of them on the routes of `addCompany`,
`updateComData`, `addJob` and `updateJob` and on no other. `roleVal` answers a `req.user`
of role User with `next(403 "Access denied")` and one of role Company_HR with `next()`.
For a request whose body passes the `validate` stage of the route, if it has one, a
token that verifies with role User ends in that 403 error whatever the handler would do,
with the store as it was, and a token that verifies with role Company_HR reaches the
handler with that identity. A request whose body fails the `validate` stage of the route
ends in the 404 error of `validate`, whatever its token and whatever the handler would
do, with the store as it was. -/
theorem roleVal_gates_hr_routes (env : RouteEnv) (r : Route) (name : String)
    (req : Request) (s : Store) (userId : ObjectId)
    (hroute : r ∈ companyRouter ++ jobRouter ++ applicationRouter)
    (hname : name ∈ hrGatedHandlers)
    (hhandler : Stage.handler name ∈ r.stages) :
    (∃ pre, r.stages = pre ++ [Stage.verifyToken, Stage.roleVal, Stage.handler name]
        ∧ (pre = [] ∨ ∃ sch, pre = [Stage.validate sch]))
      ∧ (r.stages.any Stage.isValidate = true
          ↔ name ∈ ["addCompany", "updateComData", "addJob", "updateJob"])
      ∧ roleVal { req with user := some ⟨userId, Role.User⟩ }
          = Step.nextError ⟨"Access denied", some 403⟩
              { req with user := some ⟨userId, Role.User⟩ }
      ∧ roleVal { req with user := some ⟨userId, Role.Company_HR⟩ }
          = Step.next { req with user := some ⟨userId, Role.Company_HR⟩ }
      ∧ ((∀ sch, Stage.validate sch ∈ r.stages → env.joiError sch = none) →
          env.verify req.token = some ⟨userId, Role.User⟩ →
            runStages env r.stages req s = (Outcome.next ⟨"Access denied", some 403⟩, s))
      ∧ ((∀ sch, Stage.validate sch ∈ r.stages → env.joiError sch = none) →
          env.verify req.token = some ⟨userId, Role.Company_HR⟩ →
            runStages env r.stages req s
              = env.handle name (some ⟨userId, Role.Company_HR⟩) s)
      ∧ (∀ (sch : String) (msgs : List String), Stage.validate sch ∈ r.stages →
          env.joiError sch = some msgs →
            runStages env r.stages req s
              = (Outcome.next ⟨String.intercalate "," msgs, some 404⟩, s)) := by
  have hU : includes (Role.toString Role.User) "Company_HR" = false := by decide
  have hH : includes (Role.toString Role.Company_HR) "Company_HR" = true := by decide
  have hcases := gated_route_cases r name hroute hname hhandler
  have hrun : (∀ sch, Stage.validate sch ∈ r.stages → env.joiError sch = none) →
      runStages env r.stages req s
        = runStages env [Stage.verifyToken, Stage.roleVal, Stage.handler name] req s := by
    intro hvalid
    rcases hcases with h | ⟨sch, h⟩
    · rw [h]
    · have hpass : env.joiError sch = none :=
        hvalid sch (by rw [h]; exact List.mem_cons_self _ _)
      rw [h, runStages_validate, hpass]
  refine ⟨?_, validated_routes r hroute name hname hhandler, ?_, ?_, ?_, ?_, ?_⟩
  · rcases hcases with h | ⟨sch, h⟩
    · exact ⟨[], by rw [h]; rfl, Or.inl rfl⟩
    · exact ⟨[Stage.validate sch], by rw [h]; rfl, Or.inr ⟨sch, rfl⟩⟩
  · simp [roleVal, hU]
  · simp [roleVal, hH]
  · intro hvalid huser
    rw [hrun hvalid]
    exact (gate_chain env name req s userId).1 huser
  · intro hvalid hhr
    rw [hrun hvalid]
    exact (gate_chain env name req s userId).2 hhr
  · intro schema msgs hstage hinvalid
    rcases hcases with h | ⟨sch, h⟩
    · rw [h] at hstage
      simp at hstage
    · rw [h] at hstage
      have hsch : schema = sch := by simpa using hstage
      rw [h, runStages_validate, ← hsch, hinvalid]

/-- Witness of C17 (amended) on `POST /companies/addCompany`: with the body `addBeta`,
which passes `addCompanyVal`, `userU` is stopped by `roleVal` and `hrH` reaches
`addCompany`; with the body `addShortName`, which fails it, `hrH` is stopped by
`validate`. -/
theorem roleVal_gates_hr_routes_witness :
    addCompanyRoute ∈ companyRouter ++ jobRouter ++ applicationRouter
      ∧ "addCompany" ∈ hrGatedHandlers
      ∧ Stage.handler "addCompany" ∈ addCompanyRoute.stages
      ∧ (∀ sch, Stage.validate sch ∈ addCompanyRoute.stages → addBetaEnv.joiError sch = none)
      ∧ addBetaEnv.verify reqU.token = some ⟨2, Role.User⟩
      ∧ addBetaEnv.verify reqH.token = some ⟨1, Role.Company_HR⟩
      ∧ Stage.validate "addCompanyVal" ∈ addCompanyRoute.stages
      ∧ addShortNameEnv.joiError "addCompanyVal"
          = some ["companyName length must be at least 2 characters long"]
      ∧ runStages addBetaEnv addCompanyRoute.stages reqU sampleStore
          = (Outcome.next ⟨"Access denied", some 403⟩, sampleStore)
      ∧ runStages addBetaEnv addCompanyRoute.stages reqH sampleStore
          = addBetaEnv.handle "addCompany" (some ⟨1, Role.Company_HR⟩) sampleStore
      ∧ runStages addShortNameEnv addCompanyRoute.stages reqH sampleStore
          = (Outcome.next
              ⟨String.intercalate "," ["companyName length must be at least 2 characters long"],
                some 404⟩, sampleStore) :=
  ⟨by decide, by decide, by decide, fun _ _ => rfl, by decide, by decide, by decide, by decide,
    (roleVal_gates_hr_routes addBetaEnv addCompanyRoute "addCompany" reqU sampleStore 2
      (by decide) (by decide) (by decide)).2.2.2.2.1 (fun _ _ => rfl) (by decide),
    (roleVal_gates_hr_routes addBetaEnv addCompanyRoute "addCompany" reqH sampleStore 1
      (by decide) (by decide) (by decide)).2.2.2.2.2.1 (fun _ _ => rfl) (by decide),
    (roleVal_gates_hr_routes addShortNameEnv addCompanyRoute "addCompany" reqH sampleStore 1
      (by decide) (by decide) (by decide)).2.2.2.2.2.2 "addCompanyVal"
      ["companyName length must be at least 2 characters long"] (by decide) (by decide)⟩

/-! ## Responses without password -/

/-- C18. For every store and request, `signUp` either is refused by a unique index or
answers 201 with exactly one user record, and that record has no `password`;
`getUserProfile` either answers 404 or answers 200 with the profile of the stored user,
and that record has no `password`. -/
theorem responses_omit_password (newId : ObjectId) (now : Millis) (s : Store)
    (body : SignUpBody) (userId : ObjectId) :
    ((signUp newId now s body).1 = Outcome.threw JsError.duplicateKey
        ∨ ∃ v : UserJson, (signUp newId now s body).1
              = Outcome.sent 201 (Body.users "Success" [v])
            ∧ v.password = none ∧ v.email = body.email ∧ v._id = newId)
      ∧ ((getUserProfile s userId).1 = Outcome.next ⟨"User Not Found.", some 404⟩
        ∨ ∃ (u : User) (v : UserJson), findById s.users userId = some u
            ∧ (getUserProfile s userId).1 = Outcome.sent 200 (Body.profile "success" v)
            ∧ v.password = none ∧ v.email = u.email ∧ v._id = u._id) := by
  constructor
  · unfold signUp
    simp only
    split
    · left; rfl
    · right; exact ⟨_, rfl, rfl, rfl, rfl⟩
  · unfold getUserProfile
    cases h : findById s.users userId with
    | none => left; rfl
    | some u => right; exact ⟨u, _, rfl, rfl, rfl, rfl, rfl⟩

/-- The two success cases of C18 on the sample database: the records sent for a new
sign-up and for the profile of `userU` carry no password. -/
theorem responses_omit_password_sample :
    (signUp 4 70 sampleStore signUpBody).1
        = Outcome.sent 201 (Body.users "Success"
            [{ _id := 4, firstName := "Nada", lastName := "New", username := "nada",
               email := "nada@gmail.com", password := none, recoveryEmail := none, DOB := 0,
               mobileNumber := "01512345678", role := Role.User, status := Status.offline,
               passwordResetOtp := none, passwordResetOtpExpiry := none, createdAt := 70 }])
      ∧ getUserProfile sampleStore 2
          = (Outcome.sent 200 (Body.profile "success" (withoutPassword userU)), sampleStore)
      ∧ (withoutPassword userU).password = none := by
  decide

/-! ## The owner of a company is an HR user -/

theorem mem_updateById {α : Type} [Doc α] (xs : List α) (id : ObjectId) (f : α → α) (c : α)
    (h : c ∈ updateById xs id f) : c ∈ xs ∨ ∃ d ∈ xs, c = f d := by
  induction xs with
  | nil => simp [updateById] at h
  | cons x xs ih =>
    by_cases hx : (Doc.oid x == id) = true
    · simp only [updateById, hx, if_true] at h
      rcases List.mem_cons.mp h with h1 | h1
      · right; exact ⟨x, List.mem_cons_self _ _, h1⟩
      · left; exact List.mem_cons_of_mem _ h1
    · simp only [updateById, hx, if_false] at h
      rcases List.mem_cons.mp h with h1 | h1
      · left; rw [h1]; exact List.mem_cons_self _ _
      · rcases ih h1 with h2 | ⟨d, hd, hc⟩
        · left; exact List.mem_cons_of_mem _ h2
        · right; exact ⟨d, List.mem_cons_of_mem _ hd, hc⟩

/-- The deleting handlers leave the users alone and only take companies away. -/
theorem deletes_shrink_companies (s : Store) (user : TokenPayload) (companyId : ObjectId) :
    ((deleteCompany s user companyId).2.users = s.users
        ∧ ∀ c ∈ (deleteCompany s user companyId).2.companies, c ∈ s.companies)
      ∧ ((deleteAcc s user).2.users = s.users
        ∧ ∀ c ∈ (deleteAcc s user).2.companies, c ∈ s.companies) := by
  constructor
  · unfold deleteCompany
    cases findById s.companies companyId with
    | none => exact ⟨rfl, fun c hc => hc⟩
    | some company =>
      by_cases h : (company.companyHR != user.userId) = true
      · refine ⟨by simp only [h, if_true], fun c hc => ?_⟩
        simp only [h, if_true] at hc
        exact hc
      · refine ⟨by simp only [h, Bool.false_eq_true, if_false], fun c hc => ?_⟩
        simp only [h, Bool.false_eq_true, if_false] at hc
        exact List.mem_of_mem_eraseP hc
  · have hres : resolveIdentifier "Token" = Except.error (JsError.referenceError "Token") := by
      rfl
    unfold deleteAcc
    simp only [hres]
    cases findOne s.companies (fun c => c.companyHR == user.userId) with
    | none => exact ⟨rfl, fun c hc => hc⟩
    | some company =>
      refine ⟨rfl, fun c hc => ?_⟩
      exact List.mem_of_mem_eraseP hc

/-- C20 (counterexample). The sample database satisfies the invariant. Its owner `hrH`
sends `PUT /companies/10` with body `{ companyHR: 2 }`, which `updateComVal` admits; the
handler answers 200 and `acme` now has `companyHR` 2, the id of `userU`, whose role is
User: the invariant is broken by `updateComData`. -/
theorem updateComData_breaks_invariant :
    companiesHaveHR sampleStore
      ∧ findById sampleStore.companies 10 = some acme
      ∧ acme.companyHR = tokenH.userId
      ∧ (updateComData sampleStore tokenH 10 handoverPatch).1
          = Outcome.sent 200 (Body.company "Success" (some { acme with companyHR := 2 }))
      ∧ (updateComData sampleStore tokenH 10 handoverPatch).2.companies
          = [{ acme with companyHR := 2 }]
      ∧ findById (updateComData sampleStore tokenH 10 handoverPatch).2.users 2 = some userU
      ∧ userU.role = Role.User
      ∧ ¬ companiesHaveHR (updateComData sampleStore tokenH 10 handoverPatch).2 := by
  decide

/-- C20 (amended). From a store in which every Company's `companyHR` is a stored User
of role Company_HR, that is still so after `addCompany` by a caller whose `userId` is a
stored User of role Company_HR, after `updateComData` with a body that has no
`companyHR` or whose `companyHR` is a stored User of role Company_HR, after
`deleteCompany` and after `deleteAcc`. -/
theorem companyHR_invariant (newId : ObjectId) (now : Millis) (s : Store)
    (adder user : TokenPayload) (addBody : AddCompanyBody) (companyId : ObjectId)
    (patch : CompanyPatch)
    (hinv : companiesHaveHR s)
    (hadder : ∃ u ∈ s.users, u._id = adder.userId ∧ u.role = Role.Company_HR)
    (hpatch : ∀ h, patch.companyHR = some h →
      ∃ u ∈ s.users, u._id = h ∧ u.role = Role.Company_HR) :
    companiesHaveHR (addCompany newId now s adder addBody).2
      ∧ companiesHaveHR (updateComData s user companyId patch).2
      ∧ companiesHaveHR (deleteCompany s user companyId).2
      ∧ companiesHaveHR (deleteAcc s user).2 := by
  have hdel := deletes_shrink_companies s user companyId
  refine ⟨?_, ?_, ?_, ?_⟩
  · unfold addCompany
    simp only
    split
    · exact hinv
    · intro c hc
      rcases List.mem_append.mp hc with h1 | h1
      · exact hinv c h1
      · rw [List.mem_singleton.mp h1]
        exact hadder
  · unfold updateComData
    cases hfound : findById s.companies companyId with
    | none => exact hinv
    | some company =>
      simp only
      split
      · exact hinv
      · split
        · exact hinv
        · intro c hc
          rcases mem_updateById s.companies companyId patch.apply c hc with h1 | ⟨d, hd, hcd⟩
          · exact hinv c h1
          · rw [hcd]
            cases hp : patch.companyHR with
            | none =>
              have : (patch.apply d).companyHR = d.companyHR := by
                simp [CompanyPatch.apply, hp]
              rw [this]
              exact hinv d hd
            | some h =>
              have : (patch.apply d).companyHR = h := by
                simp [CompanyPatch.apply, hp]
              rw [this]
              exact hpatch h hp
  · intro c hc
    obtain ⟨u, hu, h1, h2⟩ := hinv c (hdel.1.2 c hc)
    exact ⟨u, by rw [hdel.1.1]; exact hu, h1, h2⟩
  · intro c hc
    obtain ⟨u, hu, h1, h2⟩ := hinv c (hdel.2.2 c hc)
    exact ⟨u, by rw [hdel.2.1]; exact hu, h1, h2⟩

/-- Witness of C20 (amended) on the sample database: `hrH` adds a second company,
changes the address of `acme`, deletes `acme`, and deletes the account. -/
theorem companyHR_invariant_witness :
    companiesHaveHR sampleStore
      ∧ (∃ u ∈ sampleStore.users, u._id = tokenH.userId ∧ u.role = Role.Company_HR)
      ∧ (∀ h, addressPatch.companyHR = some h →
          ∃ u ∈ sampleStore.users, u._id = h ∧ u.role = Role.Company_HR)
      ∧ (companiesHaveHR (addCompany 11 80 sampleStore tokenH addBeta).2
          ∧ companiesHaveHR (updateComData sampleStore tokenH 10 addressPatch).2
          ∧ companiesHaveHR (deleteCompany sampleStore tokenH 10).2
          ∧ companiesHaveHR (deleteAcc sampleStore tokenH).2) :=
  ⟨by decide, by decide, fun h hh => by simp [addressPatch] at hh,
    companyHR_invariant 11 80 sampleStore tokenH tokenH addBeta 10 addressPatch
      (by decide) (by decide) (fun h hh => by simp [addressPatch] at hh)⟩

/-! ## The lookup of signIn -/

/-- C22. The filter `signIn` passes to `User.findOne` is `{ email: body.email }` whatever
`recoveryEmail` the body carries, and two bodies with the same `email` and `password`
have the same outcome and leave the same store, whatever their `recoveryEmail`. -/
theorem signIn_ignores_recoveryEmail (bcrypt : Bcrypt) (jwt : Jwt) (s : Store)
    (b1 b2 : SignInBody)
    (hemail : b1.email = b2.email)
    (hpassword : b1.password = b2.password) :
    logicalOr (UserFilter.email b1.email) (UserFilter.recoveryEmail b1.recoveryEmail)
        = UserFilter.email b1.email
      ∧ logicalOr (UserFilter.email b2.email) (UserFilter.recoveryEmail b2.recoveryEmail)
        = UserFilter.email b2.email
      ∧ signIn bcrypt jwt s b1 = signIn bcrypt jwt s b2 := by
  have h1 : logicalOr (UserFilter.email b1.email) (UserFilter.recoveryEmail b1.recoveryEmail)
      = UserFilter.email b1.email := rfl
  have h2 : logicalOr (UserFilter.email b2.email) (UserFilter.recoveryEmail b2.recoveryEmail)
      = UserFilter.email b2.email := rfl
  refine ⟨h1, h2, ?_⟩
  unfold signIn
  rw [h1, h2, hemail, hpassword]

/-- Witness of C22 on the sample database: `userU` signs in, once without
`recoveryEmail` and once with the recovery email of `hrH`; both get the token of
`userU`. -/
theorem signIn_ignores_recoveryEmail_witness :
    signInOmar.email = signInOmarOtherRecovery.email
      ∧ signInOmar.password = signInOmarOtherRecovery.password
      ∧ signInOmar.recoveryEmail ≠ signInOmarOtherRecovery.recoveryEmail
      ∧ (signIn toyBcrypt toyJwt sampleStore signInOmarOtherRecovery).1
          = Outcome.sent 200 (Body.token "success" (some "token-2"))
      ∧ (logicalOr (UserFilter.email signInOmar.email)
              (UserFilter.recoveryEmail signInOmar.recoveryEmail)
            = UserFilter.email signInOmar.email
          ∧ logicalOr (UserFilter.email signInOmarOtherRecovery.email)
              (UserFilter.recoveryEmail signInOmarOtherRecovery.recoveryEmail)
            = UserFilter.email signInOmarOtherRecovery.email
          ∧ signIn toyBcrypt toyJwt sampleStore signInOmar
            = signIn toyBcrypt toyJwt sampleStore signInOmarOtherRecovery) :=
  ⟨by decide, by decide, by decide, by decide,
    signIn_ignores_recoveryEmail toyBcrypt toyJwt sampleStore signInOmar
      signInOmarOtherRecovery (by decide) (by decide)⟩

/-! ## What deleteCompany keeps -/

/-- C23. After a successful `deleteCompany` of company `C` with HR `h`: the User
collection is as it was; every Company with another `_id` is still there; the Jobs left
are exactly the Jobs whose `addedBy` is not `h`; the Applications left are exactly the
Applications whose `jobId` is not the `_id` of a Job added by `h`. The documents kept are
the stored ones, unchanged and in their order. -/
theorem deleteCompany_frame (s : Store) (user : TokenPayload) (companyId : ObjectId)
    (company : Company)
    (hfound : findById s.companies companyId = some company)
    (howner : company.companyHR = user.userId) :
    (deleteCompany s user companyId).1
        = Outcome.sent 200 (Body.message "Company deleted successfully")
      ∧ (deleteCompany s user companyId).2.users = s.users
      ∧ (∀ c ∈ s.companies, c._id ≠ companyId → c ∈ (deleteCompany s user companyId).2.companies)
      ∧ (deleteCompany s user companyId).2.jobs
          = s.jobs.filter (fun j => j.addedBy != company.companyHR)
      ∧ (∀ j ∈ s.jobs, j.addedBy ≠ company.companyHR →
          j ∈ (deleteCompany s user companyId).2.jobs)
      ∧ (∀ a ∈ s.applications,
          (∀ j ∈ s.jobs, j.addedBy = company.companyHR → a.jobId ≠ j._id) →
            a ∈ (deleteCompany s user companyId).2.applications)
      ∧ List.Sublist (deleteCompany s user companyId).2.applications s.applications
      ∧ List.Sublist (deleteCompany s user companyId).2.companies s.companies := by
  simp only [deleteCompany, hfound, howner, bne_self_eq_false, Bool.false_eq_true, if_false,
    findByIdAndDelete, deleteMany, find]
  refine ⟨trivial, trivial, ?_, ?_, ?_, ?_, ?_, ?_⟩
  · intro c hc hne
    apply (List.mem_eraseP_of_neg _).mpr hc
    simpa [Doc.oid] using hne
  · apply List.filter_congr
    intro j _
    simp [bne, howner]
  · intro j hj hne
    apply List.mem_filter.mpr
    refine ⟨hj, ?_⟩
    simpa using hne
  · intro a ha hnot
    apply List.mem_filter.mpr
    refine ⟨ha, ?_⟩
    simp only [Bool.not_eq_true', List.contains_eq_any_beq, List.any_eq_false, beq_iff_eq,
      List.mem_map, List.mem_filter]
    intro jid hjid
    obtain ⟨j, ⟨hj, hjo⟩, hid⟩ := hjid
    intro heq
    have hjo2 : j.addedBy = user.userId := by
      simpa using hjo
    exact hnot j hj hjo2 (by rw [hid, heq])
  · exact List.filter_sublist _
  · exact List.eraseP_sublist _

/-- Witness of C23: `hrH` deletes `acme` from the database with two owners; `globex`,
the job of `hrG` and the application to it stay. -/
theorem deleteCompany_frame_witness :
    findById twoOwnersStore.companies 10 = some acme
      ∧ acme.companyHR = tokenH.userId
      ∧ (deleteCompany twoOwnersStore tokenH 10).2
          = { users := [hrH, userU, hrG], companies := [globex], jobs := [jobG],
              applications := [appG] }
      ∧ ((deleteCompany twoOwnersStore tokenH 10).1
            = Outcome.sent 200 (Body.message "Company deleted successfully")
          ∧ (deleteCompany twoOwnersStore tokenH 10).2.users = twoOwnersStore.users
          ∧ (∀ c ∈ twoOwnersStore.companies, c._id ≠ 10 →
              c ∈ (deleteCompany twoOwnersStore tokenH 10).2.companies)
          ∧ (deleteCompany twoOwnersStore tokenH 10).2.jobs
              = twoOwnersStore.jobs.filter (fun j => j.addedBy != acme.companyHR)
          ∧ (∀ j ∈ twoOwnersStore.jobs, j.addedBy ≠ acme.companyHR →
              j ∈ (deleteCompany twoOwnersStore tokenH 10).2.jobs)
          ∧ (∀ a ∈ twoOwnersStore.applications,
              (∀ j ∈ twoOwnersStore.jobs, j.addedBy = acme.companyHR → a.jobId ≠ j._id) →
                a ∈ (deleteCompany twoOwnersStore tokenH 10).2.applications)
          ∧ List.Sublist (deleteCompany twoOwnersStore tokenH 10).2.applications
              twoOwnersStore.applications
          ∧ List.Sublist (deleteCompany twoOwnersStore tokenH 10).2.companies
              twoOwnersStore.companies) :=
  ⟨by decide, by decide, by decide,
    deleteCompany_frame twoOwnersStore tokenH 10 acme (by decide) (by decide)⟩

/-! ## The owner of a created record -/

/-- C25. For every `addCompany` request: when no stored Company has the `companyName` or
the `companyEmail` of the body, exactly one Company is added, with the fields of the body
and `companyHR` equal to `req.user.userId`; when a stored Company has one of them, the
insert is refused by the unique index and nothing is stored. For every `addJob` request
exactly one Job is added and its `addedBy` is `req.user.userId`. The `companyHR` and
`addedBy` keys of the bodies are arbitrary. -/
theorem created_owner_is_caller (newId : ObjectId) (now : Millis) (s : Store)
    (user : TokenPayload) (companyBody : AddCompanyBody) (jobBody : AddJobBody) :
    ((∀ d ∈ s.companies, d.companyName ≠ companyBody.companyName
          ∧ d.companyEmail ≠ companyBody.companyEmail) →
        addCompany newId now s user companyBody
          = (Outcome.sent 201 (Body.companies "success"
              [{ _id := newId, companyName := companyBody.companyName,
                 description := companyBody.description, industry := companyBody.industry,
                 address := companyBody.address,
                 numberOfEmployees := companyBody.numberOfEmployees,
                 companyEmail := companyBody.companyEmail,
                 companyHR := user.userId, createdAt := now }]),
              { s with companies := s.companies ++
                [{ _id := newId, companyName := companyBody.companyName,
                   description := companyBody.description, industry := companyBody.industry,
                   address := companyBody.address,
                   numberOfEmployees := companyBody.numberOfEmployees,
                   companyEmail := companyBody.companyEmail,
                   companyHR := user.userId, createdAt := now }] }))
      ∧ ((∃ d ∈ s.companies, d.companyName = companyBody.companyName
            ∨ d.companyEmail = companyBody.companyEmail) →
        addCompany newId now s user companyBody = (Outcome.threw JsError.duplicateKey, s))
      ∧ addJob newId s user jobBody
          = (Outcome.sent 201 (Body.jobs "success"
              [{ _id := newId, jobTitle := jobBody.jobTitle, jobLocation := jobBody.jobLocation,
                 workingTime := jobBody.workingTime, seniorityLevel := jobBody.seniorityLevel,
                 jobDescription := jobBody.jobDescription,
                 technicalSkills := jobBody.technicalSkills.getD [],
                 softSkills := jobBody.softSkills.getD [],
                 addedBy := user.userId }]),
              { s with jobs := s.jobs ++
                [{ _id := newId, jobTitle := jobBody.jobTitle,
                   jobLocation := jobBody.jobLocation,
                   workingTime := jobBody.workingTime,
                   seniorityLevel := jobBody.seniorityLevel,
                   jobDescription := jobBody.jobDescription,
                   technicalSkills := jobBody.technicalSkills.getD [],
                   softSkills := jobBody.softSkills.getD [],
                   addedBy := user.userId }] }) := by
  refine ⟨?_, ?_, rfl⟩
  · intro hfree
    have hany : s.companies.any (fun d => d.companyName == companyBody.companyName
        || d.companyEmail == companyBody.companyEmail) = false := by
      rw [List.any_eq_false]
      intro d hd
      have h := hfree d hd
      simp [h.1, h.2]
    simp only [addCompany, hany, Bool.false_eq_true, if_false, Option.getD_some]
  · rintro ⟨d, hd, hclash⟩
    have hany : s.companies.any (fun d => d.companyName == companyBody.companyName
        || d.companyEmail == companyBody.companyEmail) = true := by
      rw [List.any_eq_true]
      refine ⟨d, hd, ?_⟩
      rcases hclash with h | h <;> simp [h]
    simp only [addCompany, hany, if_true]

/-- Witness of C25 on the sample database: `hrH` (id 1) sends bodies that name `hrG`
(id 3) as `companyHR` and as `addedBy`. The Company `addGamma`, whose name and email are
free, and the Job are stored with owner 1; `addAcmeTwin`, which takes the name of `acme`,
is refused. -/
theorem created_owner_is_caller_witness :
    addGamma.companyHR = some 3
      ∧ addAcmeTwin.companyHR = some 3
      ∧ addJobBody.addedBy = some 3
      ∧ tokenH.userId = 1
      ∧ (∀ d ∈ sampleStore.companies, d.companyName ≠ addGamma.companyName
          ∧ d.companyEmail ≠ addGamma.companyEmail)
      ∧ (∃ d ∈ sampleStore.companies, d.companyName = addAcmeTwin.companyName
          ∨ d.companyEmail = addAcmeTwin.companyEmail)
      ∧ addCompany 13 90 sampleStore tokenH addGamma
          = (Outcome.sent 201 (Body.companies "success"
              [{ _id := 13, companyName := "Gamma", description := "Makes more",
                 industry := "Tools", address := "Luxor", numberOfEmployees := "1-10",
                 companyEmail := "gamma@gmail.com", companyHR := 1, createdAt := 90 }]),
              { sampleStore with companies := sampleStore.companies ++
                [{ _id := 13, companyName := "Gamma", description := "Makes more",
                   industry := "Tools", address := "Luxor", numberOfEmployees := "1-10",
                   companyEmail := "gamma@gmail.com", companyHR := 1, createdAt := 90 }] })
      ∧ addCompany 13 90 sampleStore tokenH addAcmeTwin
          = (Outcome.threw JsError.duplicateKey, sampleStore)
      ∧ (addJob 23 sampleStore tokenH addJobBody).2.jobs.map (fun j => j.addedBy)
          = sampleStore.jobs.map (fun j => j.addedBy) ++ [1] :=
  ⟨by decide, by decide, by decide, by decide, by decide, by decide,
    (created_owner_is_caller 13 90 sampleStore tokenH addGamma addJobBody).1 (by decide),
    (created_owner_is_caller 13 90 sampleStore tokenH addAcmeTwin addJobBody).2.1 (by decide),
    by rw [(created_owner_is_caller 23 90 sampleStore tokenH addGamma addJobBody).2.2]; decide⟩

/-! ## Conflicts in updateAcc -/

/-- A document found by its mobile number, other than the caller's, makes the update of
the caller's document to that number break the unique index. -/
theorem mobile_conflict_clashes (xs : List User) (body : UpdateAccBody) (account other : User)
    (m : String) (hmobile : body.mobileNumber = some m)
    (hother : findOne xs (fun u => some u.mobileNumber == body.mobileNumber) = some other)
    (hne : other._id ≠ account._id) :
    userUpdateClash xs (body.apply account) = true := by
  have hmem : other ∈ xs := List.mem_of_find?_eq_some hother
  have hp := List.find?_some hother
  have hm : other.mobileNumber = m := by
    rw [hmobile] at hp
    simpa using hp
  unfold userUpdateClash
  rw [List.any_eq_true]
  refine ⟨other, hmem, ?_⟩
  have happly : (body.apply account).mobileNumber = m := by
    simp [UpdateAccBody.apply, hmobile]
  have hid : (body.apply account)._id = account._id := rfl
  simp [happly, hm, hid, hne]

/-- C24. When the email of the body belongs to a different user, `updateAcc` calls
`next` with "Email Already Exist." (404), does nothing else, and the store is as it was.
When the mobile number of the body belongs to a different user (and the email does not
conflict), the first thing `updateAcc` does is call `next` with
"Mobile Number Already Exist." (404), and the store afterwards is as it was: no record
is updated. -/
theorem updateAcc_conflicts (s : Store) (user : TokenPayload)
    (emailBody mobileBody : UpdateAccBody) (e m : String) (holder1 holder2 : User)
    (hemail : emailBody.email = some e)
    (he : e ≠ "")
    (hholder1 : findOne s.users (fun u => some u.email == emailBody.email) = some holder1)
    (hne1 : holder1._id ≠ user.userId)
    (hnoemail : (truthyString mobileBody.email
      && foundOther (findOne s.users (fun u => some u.email == mobileBody.email)) user.userId)
        = false)
    (hmobile : mobileBody.mobileNumber = some m)
    (hm : m ≠ "")
    (hholder2 : findOne s.users (fun u => some u.mobileNumber == mobileBody.mobileNumber)
      = some holder2)
    (hne2 : holder2._id ≠ user.userId) :
    updateAcc s user emailBody = ([Outcome.next ⟨"Email Already Exist.", some 404⟩], s)
      ∧ (updateAcc s user mobileBody).1.head?
          = some (Outcome.next ⟨"Mobile Number Already Exist.", some 404⟩)
      ∧ (∀ o ∈ (updateAcc s user mobileBody).1, ∀ status body, o ≠ Outcome.sent status body)
      ∧ (updateAcc s user mobileBody).2 = s := by
  have hchk1 : (truthyString emailBody.email
      && foundOther (findOne s.users (fun u => some u.email == emailBody.email)) user.userId)
        = true := by
    rw [hholder1]
    simp [hemail, truthyString, foundOther, he, hne1]
  have hchk2 : (truthyString mobileBody.mobileNumber
      && foundOther (findOne s.users (fun u => some u.mobileNumber == mobileBody.mobileNumber))
          user.userId) = true := by
    rw [hholder2]
    simp [hmobile, truthyString, foundOther, hm, hne2]
  refine ⟨?_, ?_, ?_, ?_⟩
  · simp only [updateAcc, hchk1, if_true]
  · simp only [updateAcc, hnoemail, Bool.false_eq_true, if_false, hchk2, if_true]
    cases hacc : findById s.users user.userId with
    | none => rfl
    | some account =>
      simp only []
      split <;> rfl
  · simp only [updateAcc, hnoemail, Bool.false_eq_true, if_false, hchk2, if_true]
    cases hacc : findById s.users user.userId with
    | none =>
      intro o ho status body
      simp at ho
      rcases ho with rfl | rfl <;> simp
    | some account =>
      have hid : account._id = user.userId := findById_some_oid s.users user.userId account hacc
      have hclash := mobile_conflict_clashes s.users mobileBody account holder2 m hmobile
        hholder2 (by rw [hid]; exact hne2)
      simp only [hclash, if_true]
      intro o ho status body
      simp at ho
      rcases ho with rfl | rfl <;> simp
  · simp only [updateAcc, hnoemail, Bool.false_eq_true, if_false, hchk2, if_true]
    cases hacc : findById s.users user.userId with
    | none => rfl
    | some account =>
      have hid : account._id = user.userId := findById_some_oid s.users user.userId account hacc
      have hclash := mobile_conflict_clashes s.users mobileBody account holder2 m hmobile
        hholder2 (by rw [hid]; exact hne2)
      simp only [hclash, if_true]

/-- Witness of C24 on the sample database: `userU` asks for the email of `hrH`, and for
the mobile number of `hrH`. -/
theorem updateAcc_conflicts_witness :
    takeEmail.email = some "hana@gmail.com"
      ∧ "hana@gmail.com" ≠ ""
      ∧ findOne sampleStore.users (fun u => some u.email == takeEmail.email) = some hrH
      ∧ hrH._id ≠ tokenU.userId
      ∧ (truthyString takeMobile.email
          && foundOther (findOne sampleStore.users (fun u => some u.email == takeMobile.email))
              tokenU.userId) = false
      ∧ takeMobile.mobileNumber = some "01012345678"
      ∧ "01012345678" ≠ ""
      ∧ findOne sampleStore.users (fun u => some u.mobileNumber == takeMobile.mobileNumber)
          = some hrH
      ∧ (updateAcc sampleStore tokenU takeEmail
            = ([Outcome.next ⟨"Email Already Exist.", some 404⟩], sampleStore)
          ∧ (updateAcc sampleStore tokenU takeMobile).1.head?
              = some (Outcome.next ⟨"Mobile Number Already Exist.", some 404⟩)
          ∧ (∀ o ∈ (updateAcc sampleStore tokenU takeMobile).1, ∀ status body,
              o ≠ Outcome.sent status body)
          ∧ (updateAcc sampleStore tokenU takeMobile).2 = sampleStore) :=
  ⟨by decide, by decide, by decide, by decide, by decide, by decide, by decide, by decide,
    updateAcc_conflicts sampleStore tokenU takeEmail takeMobile "hana@gmail.com" "01012345678"
      hrH hrH (by decide) (by decide) (by decide) (by decide) (by decide) (by decide)
      (by decide) (by decide) (by decide)⟩

/-- The two conflicts on the sample database, step by step: after the email conflict the
handler stops; after the mobile conflict it still sends the update of line 104, which the
unique index on `mobileNumber` refuses. An update without conflict is stored. -/
theorem updateAcc_sample :
    updateAcc sampleStore tokenU takeEmail
        = ([Outcome.next ⟨"Email Already Exist.", some 404⟩], sampleStore)
      ∧ updateAcc sampleStore tokenU takeMobile
        = ([Outcome.next ⟨"Mobile Number Already Exist.", some 404⟩,
            Outcome.threw JsError.duplicateKey], sampleStore)
      ∧ (updateAcc sampleStore tokenU renameOmar).2.users
        = [hrH, { userU with firstName := "Omer" }, hrG] := by
  decide

/-! ## Applications are added and removed, never rewritten -/

/-- The handlers of user.controllers.js other than `deleteAcc` leave the Application
collection as it is. -/
theorem user_handlers_keep_applications (bcrypt : Bcrypt) (jwt : Jwt) (newId : ObjectId)
    (now : Millis) (draw : Fin 900000) (s : Store) (user : TokenPayload)
    (signUpB : SignUpBody) (signInB : SignInBody) (updateB : UpdateAccBody)
    (passwordB : UpdatePasswordBody) (resetB : ResetPassBody) (userId : ObjectId)
    (recoveryEmail : String) (recoveryQuery : Option String) :
    (signUp newId now s signUpB).2.applications = s.applications
      ∧ (signIn bcrypt jwt s signInB).2.applications = s.applications
      ∧ (updateAcc s user updateB).2.applications = s.applications
      ∧ (getUserData s user).2.applications = s.applications
      ∧ (getUserProfile s userId).2.applications = s.applications
      ∧ (updatePassword bcrypt s user passwordB).2.applications = s.applications
      ∧ (forgetPassReq now draw s recoveryEmail).2.applications = s.applications
      ∧ (resetPass bcrypt now s resetB).2.applications = s.applications
      ∧ (getAccByRecovery s recoveryQuery).2.applications = s.applications := by
  refine ⟨?_, ?_, ?_, ?_, ?_, ?_, ?_, ?_, ?_⟩
  · unfold signUp
    simp only
    split <;> rfl
  · unfold signIn
    split
    · rfl
    · split <;> rfl
  · unfold updateAcc
    simp only
    split
    · rfl
    · split
      · rfl
      · split <;> rfl
  · unfold getUserData
    split <;> rfl
  · unfold getUserProfile
    split <;> rfl
  · unfold updatePassword
    split
    · rfl
    · split <;> rfl
  · unfold forgetPassReq
    split <;> rfl
  · rcases resetPass_store bcrypt now s resetB with h | ⟨u, hash, _, h⟩
    · rw [h]
    · rw [h]
  · unfold getAccByRecovery
    split
    · rfl
    · simp only
      split <;> rfl

/-- The handlers of company.controllers.js and job.controllers.js other than
`deleteCompany` and `deleteJob` leave the Application collection as it is. -/
theorem company_job_handlers_keep_applications (regExpI : String → Option (String → Bool))
    (newId : ObjectId) (now : Millis) (s : Store) (user : TokenPayload)
    (addCompanyB : AddCompanyBody) (companyPatch : CompanyPatch) (addJobB : AddJobBody)
    (jobPatch : JobPatch) (id : ObjectId) (name companyName : Option String)
    (query : FilterQuery) :
    (addCompany newId now s user addCompanyB).2.applications = s.applications
      ∧ (updateComData s user id companyPatch).2.applications = s.applications
      ∧ (getCompanyData s user id).2.applications = s.applications
      ∧ (searchCompany regExpI s name).2.applications = s.applications
      ∧ (getApplicationByJob s user id).2.applications = s.applications
      ∧ (addJob newId s user addJobB).2.applications = s.applications
      ∧ (updateJob s user id jobPatch).2.applications = s.applications
      ∧ (getJobsWithCompanyInfo s).2.applications = s.applications
      ∧ (getJobsForCompany s companyName).2.applications = s.applications
      ∧ (filterJobs regExpI s query).2.applications = s.applications := by
  refine ⟨?_, ?_, ?_, ?_, ?_, ?_, ?_, ?_, ?_, ?_⟩
  · unfold addCompany
    simp only
    split <;> rfl
  · unfold updateComData
    split
    · rfl
    · split
      · rfl
      · split <;> rfl
  · unfold getCompanyData
    split
    · rfl
    · split <;> rfl
  · unfold searchCompany
    split
    · rfl
    · split
      · rfl
      · simp only
        split <;> rfl
  · unfold getApplicationByJob
    split
    · rfl
    · split
      · rfl
      · simp only
        split <;> rfl
  · rfl
  · unfold updateJob
    split <;> rfl
  · unfold getJobsWithCompanyInfo
    split <;> rfl
  · unfold getJobsForCompany
    split
    · rfl
    · simp only
      split <;> rfl
  · unfold filterJobs
    split
    · simp only
      split <;> rfl
    · rfl

/-- C21. No handler rewrites an Application. Every handler other than `applyToJob` and
the three cascading deletes returns the Application collection as it was, the same
documents in the same order. `applyToJob` returns it as it was or with one document
appended. After `deleteJob`, `deleteCompany` and `deleteAcc` the collection is a sublist
of what it was: documents are taken out, and those that stay are the stored ones. -/
theorem applications_never_modified (bcrypt : Bcrypt) (jwt : Jwt) (dateEnv : DateEnv)
    (regExpI : String → Option (String → Bool)) (newId : ObjectId) (now : Millis)
    (draw : Fin 900000) (s : Store) (user : TokenPayload)
    (signUpB : SignUpBody) (signInB : SignInBody) (updateB : UpdateAccBody)
    (passwordB : UpdatePasswordBody) (resetB : ResetPassBody) (userId : ObjectId)
    (recoveryEmail : String) (recoveryQuery : Option String)
    (addCompanyB : AddCompanyBody) (companyPatch : CompanyPatch) (addJobB : AddJobBody)
    (jobPatch : JobPatch) (id : ObjectId) (name companyName : Option String)
    (query : FilterQuery) (exportQ : ExportQuery) (applyB : ApplyBody)
    (file : Option UploadedFile) :
    ((signUp newId now s signUpB).2.applications = s.applications
      ∧ (signIn bcrypt jwt s signInB).2.applications = s.applications
      ∧ (updateAcc s user updateB).2.applications = s.applications
      ∧ (getUserData s user).2.applications = s.applications
      ∧ (getUserProfile s userId).2.applications = s.applications
      ∧ (updatePassword bcrypt s user passwordB).2.applications = s.applications
      ∧ (forgetPassReq now draw s recoveryEmail).2.applications = s.applications
      ∧ (resetPass bcrypt now s resetB).2.applications = s.applications
      ∧ (getAccByRecovery s recoveryQuery).2.applications = s.applications)
    ∧ ((addCompany newId now s user addCompanyB).2.applications = s.applications
      ∧ (updateComData s user id companyPatch).2.applications = s.applications
      ∧ (getCompanyData s user id).2.applications = s.applications
      ∧ (searchCompany regExpI s name).2.applications = s.applications
      ∧ (getApplicationByJob s user id).2.applications = s.applications
      ∧ (addJob newId s user addJobB).2.applications = s.applications
      ∧ (updateJob s user id jobPatch).2.applications = s.applications
      ∧ (getJobsWithCompanyInfo s).2.applications = s.applications
      ∧ (getJobsForCompany s companyName).2.applications = s.applications
      ∧ (filterJobs regExpI s query).2.applications = s.applications)
    ∧ (getApplicationsByCompanyAndDate dateEnv s user exportQ).2.applications = s.applications
    ∧ (pdf s).2.applications = s.applications
    ∧ ((applyToJob newId now s user applyB file).2.applications = s.applications
      ∨ ∃ a : Application,
          (applyToJob newId now s user applyB file).2.applications = s.applications ++ [a])
    ∧ List.Sublist (deleteJob s user id).2.applications s.applications
    ∧ List.Sublist (deleteCompany s user id).2.applications s.applications
    ∧ List.Sublist (deleteAcc s user).2.applications s.applications := by
  refine ⟨user_handlers_keep_applications bcrypt jwt newId now draw s user signUpB signInB
      updateB passwordB resetB userId recoveryEmail recoveryQuery,
    company_job_handlers_keep_applications regExpI newId now s user addCompanyB companyPatch
      addJobB jobPatch id name companyName query, ?_, rfl, ?_, ?_, ?_, ?_⟩
  · unfold getApplicationsByCompanyAndDate
    split
    · rfl
    · rfl
    · split
      · rfl
      · split
        · rfl
        · split
          · rfl
          · split
            · rfl
            · simp only
              split
              · rfl
              · split <;> rfl
  · unfold applyToJob
    simp only
    split
    · left; rfl
    · split
      · left; rfl
      · split
        · left; rfl
        · left; rfl
        · split
          · left; rfl
          · split
            · left; rfl
            · right; exact ⟨_, rfl⟩
  · unfold deleteJob
    split
    · exact List.Sublist.refl _
    · split
      · exact List.Sublist.refl _
      · exact List.filter_sublist _
  · unfold deleteCompany
    split
    · exact List.Sublist.refl _
    · split
      · exact List.Sublist.refl _
      · exact List.filter_sublist _
  · have hres : resolveIdentifier "Token" = Except.error (JsError.referenceError "Token") := by
      rfl
    unfold deleteAcc
    simp only [hres]
    split
    · exact List.filter_sublist _
    · exact List.Sublist.refl _

end JobSearch
